import Mathlib

set_option maxHeartbeats 1000000

/-!
Shallow embedding of the cx_ColorLines pixel pipeline (ColorLines.cpp).

Modelling conventions:
- C `double` (PF_FpLong) arithmetic is modelled by exact rationals; decimal
  literals of the source are carried over exactly.
- The process-wide weight tables `g_invDistWeights` and `g_gaussianWeights`
  are mutable global arrays in the source; their contents are passed
  explicitly as functions from the flat index to the stored value.
- Image buffers are rectangular grids addressed by (x, y); the row-stride
  memory layout is abstracted away (all accesses in the source go through
  the row-pointer helpers and are bounds-guarded by the callers).
- The per-frame line mask is a byte grid; pass 1 writes exactly one cell
  per pixel, so the pass-1 callback is modelled as returning the pair of
  (output pixel, mask value written at (x, y)).
-/

/-- 8-bit ARGB pixel (PF_Pixel8), native channel range 0 to 255. -/
structure Pixel8 where
  red : ℕ
  green : ℕ
  blue : ℕ
  alpha : ℕ
deriving DecidableEq

/-- 16-bit ARGB pixel (PF_Pixel16), native channel range 0 to 32768. -/
structure Pixel16 where
  red : ℕ
  green : ℕ
  blue : ℕ
  alpha : ℕ
deriving DecidableEq

/-- Float ARGB pixel (PF_PixelFloat), native channel range 0.0 to 1.0. -/
structure PixelF where
  red : ℚ
  green : ℚ
  blue : ℚ
  alpha : ℚ
deriving DecidableEq

/-- PF_MAX_CHAN16 from the AE SDK. -/
def PF_MAX_CHAN16 : ℕ := 32768

/-- A frame buffer (PF_EffectWorld): dimensions plus the pixel grid. -/
structure World (α : Type) where
  width : ℤ
  height : ℤ
  data : ℤ → ℤ → α

/-- Per-frame parameter bundle (ColorLinesInfo from ColorLines.h), including
the source world, and the line-mask grid with its dimensions. -/
structure ColorLinesInfo (α : Type) where
  targetColor : Pixel8
  tolerance : ℚ
  fillMode : ℤ
  searchRadius : ℤ
  ignoreTransparent : Bool
  sampleBlur : ℚ
  brightness : ℚ
  contrast : ℚ
  saturation : ℚ
  outputMode : ℤ
  srcWorld : World α
  lineMask : ℤ → ℤ → ℕ
  maskWidth : ℤ
  maskHeight : ℤ

/-- FILL_MODE_NEAREST from ColorLines.h. -/
def FILL_MODE_NEAREST : ℤ := 1

/-- FILL_MODE_AVERAGE from ColorLines.h. -/
def FILL_MODE_AVERAGE : ℤ := 2

/-- FILL_MODE_WEIGHTED from ColorLines.h. -/
def FILL_MODE_WEIGHTED : ℤ := 3

/-- OUTPUT_MODE_FULL from ColorLines.h. -/
def OUTPUT_MODE_FULL : ℤ := 1

/-- OUTPUT_MODE_LINE_ONLY from ColorLines.h. -/
def OUTPUT_MODE_LINE_ONLY : ℤ := 2

/-- OUTPUT_MODE_BG_ONLY from ColorLines.h. -/
def OUTPUT_MODE_BG_ONLY : ℤ := 3

/-- ClampByte: clamp a double to [0, 255] and cast to A_u_char
(the cast truncates; the value is nonnegative at that point). -/
def ClampByte (value : ℚ) : ℕ :=
  if value < 0 then 0 else if value > 255 then 255 else (⌊value⌋).toNat

/-- Clamp16: clamp a double to [0, PF_MAX_CHAN16] and cast to A_u_short. -/
def Clamp16 (value : ℚ) : ℕ :=
  if value < 0 then 0
  else if value > (PF_MAX_CHAN16 : ℚ) then PF_MAX_CHAN16
  else (⌊value⌋).toNat

/-- Clamp01: clamp a double to [0.0, 1.0]. -/
def Clamp01 (value : ℚ) : ℚ :=
  if value < 0 then 0 else if value > 1 then 1 else value

/-- GetMaskAt: safe mask access with bounds check (returns 0 out of bounds). -/
def GetMaskAt {α : Type} (info : ColorLinesInfo α) (x y : ℤ) : ℕ :=
  if x < 0 ∨ x ≥ info.maskWidth ∨ y < 0 ∨ y ≥ info.maskHeight then 0
  else info.lineMask x y

/-- HueToRGB helper of the HSL to RGB conversion. -/
def HueToRGB (p q t : ℚ) : ℚ :=
  let t1 := if t < 0 then t + 1 else if t > 1 then t - 1 else t
  if t1 < 0.166666667 then p + (q - p) * 6 * t1
  else if t1 < 0.5 then q
  else if t1 < 0.666666667 then p + (q - p) * (0.666666667 - t1) * 6
  else p

/-- RGBtoHSL: RGB to HSL on normalized [0,1] channels, returning (h, s, l). -/
def RGBtoHSL (r g b : ℚ) : ℚ × ℚ × ℚ :=
  let maxVal := if r > g then (if r > b then r else b) else (if g > b then g else b)
  let minVal := if r < g then (if r < b then r else b) else (if g < b then g else b)
  let delta := maxVal - minVal
  let l := (maxVal + minVal) * 0.5
  if delta < 0.00001 then (0, 0, l)
  else
    let s := if l > 0.5 then delta / (2 - maxVal - minVal) else delta / (maxVal + minVal)
    let h0 := if maxVal = r then (g - b) / delta + (if g < b then 6 else 0)
      else if maxVal = g then (b - r) / delta + 2
      else (r - g) / delta + 4
    (h0 * 0.166666667, s, l)

/-- HSLtoRGB: HSL to RGB on normalized [0,1] channels, returning (r, g, b). -/
def HSLtoRGB (h s l : ℚ) : ℚ × ℚ × ℚ :=
  if s < 0.00001 then (l, l, l)
  else
    let q := if l < 0.5 then l * (1 + s) else l + s - l * s
    let p := 2 * l - q
    (HueToRGB p q (h + 0.333333333), HueToRGB p q h, HueToRGB p q (h - 0.333333333))

/-- IsTargetColor8Fast: squared-distance color match for 8-bit pixels
(integer distance, compared against the double tolerance-squared). -/
def IsTargetColor8Fast (pixel : Pixel8) (targetR targetG targetB : ℤ)
    (toleranceSq : ℚ) : Bool :=
  let dr : ℤ := (pixel.red : ℤ) - targetR
  let dg : ℤ := (pixel.green : ℤ) - targetG
  let db : ℤ := (pixel.blue : ℤ) - targetB
  let distSq : ℤ := dr * dr + dg * dg + db * db
  decide ((distSq : ℚ) ≤ toleranceSq)

/-- IsTargetColor16Fast: squared-distance color match for 16-bit pixels. -/
def IsTargetColor16Fast (pixel : Pixel16) (targetR targetG targetB : ℚ)
    (toleranceSq : ℚ) : Bool :=
  let dr : ℚ := (pixel.red : ℚ) - targetR
  let dg : ℚ := (pixel.green : ℚ) - targetG
  let db : ℚ := (pixel.blue : ℚ) - targetB
  let distSq : ℚ := dr * dr + dg * dg + db * db
  decide (distSq ≤ toleranceSq)

/-- IsTargetColorFloatFast: squared-distance color match for float pixels. -/
def IsTargetColorFloatFast (pixel : PixelF) (targetR targetG targetB : ℚ)
    (toleranceSq : ℚ) : Bool :=
  let dr : ℚ := pixel.red - targetR
  let dg : ℚ := pixel.green - targetG
  let db : ℚ := pixel.blue - targetB
  let distSq : ℚ := dr * dr + dg * dg + db * db
  decide (distSq ≤ toleranceSq)

/-- Precomputed color-adjustment factors (ColorAdjustParams). In the source
the factor fields are written only when the corresponding flag is set and
are never read otherwise; here they are always filled with the same
expressions. -/
structure ColorAdjustParams where
  needsAdjustment : Bool
  needsBrightness : Bool
  needsContrast : Bool
  needsSaturation : Bool
  brightnessFactor : ℚ
  contrastFactor : ℚ
  saturationFactor : ℚ
deriving DecidableEq

/-- InitColorAdjustParams: derive adjustment flags and factors from the
frame parameters. -/
def InitColorAdjustParams {α : Type} (info : ColorLinesInfo α) : ColorAdjustParams :=
  let nb := decide (info.brightness ≠ 0)
  let nc := decide (info.contrast ≠ 0)
  let ns := decide (info.saturation ≠ 0)
  { needsAdjustment := nb || nc || ns
    needsBrightness := nb
    needsContrast := nc
    needsSaturation := ns
    brightnessFactor := info.brightness / 100
    contrastFactor := ((100 + info.contrast) / 100) * ((100 + info.contrast) / 100)
    saturationFactor := (100 + info.saturation) / 100 }

/-- ApplyColorAdjustments8Fast: brightness, then contrast, then saturation,
in normalized space; results clamped back to [0,255] on write. -/
def ApplyColorAdjustments8Fast (pixel : Pixel8) (adj : ColorAdjustParams) : Pixel8 :=
  if !adj.needsAdjustment then pixel
  else
    let r0 : ℚ := pixel.red * 0.00392156863
    let g0 : ℚ := pixel.green * 0.00392156863
    let b0 : ℚ := pixel.blue * 0.00392156863
    let r1 := if adj.needsBrightness then Clamp01 (r0 + adj.brightnessFactor) else r0
    let g1 := if adj.needsBrightness then Clamp01 (g0 + adj.brightnessFactor) else g0
    let b1 := if adj.needsBrightness then Clamp01 (b0 + adj.brightnessFactor) else b0
    let r2 := if adj.needsContrast then Clamp01 (0.5 + (r1 - 0.5) * adj.contrastFactor) else r1
    let g2 := if adj.needsContrast then Clamp01 (0.5 + (g1 - 0.5) * adj.contrastFactor) else g1
    let b2 := if adj.needsContrast then Clamp01 (0.5 + (b1 - 0.5) * adj.contrastFactor) else b1
    let rgb3 :=
      if adj.needsSaturation then
        let hsl := RGBtoHSL r2 g2 b2
        let s2 := Clamp01 (hsl.2.1 * adj.saturationFactor)
        HSLtoRGB hsl.1 s2 hsl.2.2
      else (r2, g2, b2)
    { red := ClampByte (rgb3.1 * 255)
      green := ClampByte (rgb3.2.1 * 255)
      blue := ClampByte (rgb3.2.2 * 255)
      alpha := pixel.alpha }

/-- ApplyColorAdjustments16Fast: 16-bit variant, clamped to [0,32768] on write. -/
def ApplyColorAdjustments16Fast (pixel : Pixel16) (adj : ColorAdjustParams) : Pixel16 :=
  if !adj.needsAdjustment then pixel
  else
    let invMax : ℚ := 1 / (PF_MAX_CHAN16 : ℚ)
    let r0 : ℚ := pixel.red * invMax
    let g0 : ℚ := pixel.green * invMax
    let b0 : ℚ := pixel.blue * invMax
    let r1 := if adj.needsBrightness then Clamp01 (r0 + adj.brightnessFactor) else r0
    let g1 := if adj.needsBrightness then Clamp01 (g0 + adj.brightnessFactor) else g0
    let b1 := if adj.needsBrightness then Clamp01 (b0 + adj.brightnessFactor) else b0
    let r2 := if adj.needsContrast then Clamp01 (0.5 + (r1 - 0.5) * adj.contrastFactor) else r1
    let g2 := if adj.needsContrast then Clamp01 (0.5 + (g1 - 0.5) * adj.contrastFactor) else g1
    let b2 := if adj.needsContrast then Clamp01 (0.5 + (b1 - 0.5) * adj.contrastFactor) else b1
    let rgb3 :=
      if adj.needsSaturation then
        let hsl := RGBtoHSL r2 g2 b2
        let s2 := Clamp01 (hsl.2.1 * adj.saturationFactor)
        HSLtoRGB hsl.1 s2 hsl.2.2
      else (r2, g2, b2)
    { red := Clamp16 (rgb3.1 * (PF_MAX_CHAN16 : ℚ))
      green := Clamp16 (rgb3.2.1 * (PF_MAX_CHAN16 : ℚ))
      blue := Clamp16 (rgb3.2.2 * (PF_MAX_CHAN16 : ℚ))
      alpha := pixel.alpha }

/-- ApplyColorAdjustmentsFloatFast: float variant. Brightness and contrast
act directly on the native values with no clamping; only the inputs to the
HSL conversion are clamped when saturation is active; the results are
written back unclamped (the double-to-float narrowing is the identity in
this exact-arithmetic model). -/
def ApplyColorAdjustmentsFloatFast (pixel : PixelF) (adj : ColorAdjustParams) : PixelF :=
  if !adj.needsAdjustment then pixel
  else
    let r1 := if adj.needsBrightness then pixel.red + adj.brightnessFactor else pixel.red
    let g1 := if adj.needsBrightness then pixel.green + adj.brightnessFactor else pixel.green
    let b1 := if adj.needsBrightness then pixel.blue + adj.brightnessFactor else pixel.blue
    let r2 := if adj.needsContrast then 0.5 + (r1 - 0.5) * adj.contrastFactor else r1
    let g2 := if adj.needsContrast then 0.5 + (g1 - 0.5) * adj.contrastFactor else g1
    let b2 := if adj.needsContrast then 0.5 + (b1 - 0.5) * adj.contrastFactor else b1
    let rgb3 :=
      if adj.needsSaturation then
        let hsl := RGBtoHSL (Clamp01 r2) (Clamp01 g2) (Clamp01 b2)
        let s2 := Clamp01 (hsl.2.1 * adj.saturationFactor)
        HSLtoRGB hsl.1 s2 hsl.2.2
      else (r2, g2, b2)
    { red := rgb3.1
      green := rgb3.2.1
      blue := rgb3.2.2
      alpha := pixel.alpha }

/-- Inclusive integer range [lo, hi] as a list, in ascending order
(the iteration order of the C for-loops). -/
def intRange (lo hi : ℤ) : List ℤ :=
  (List.range (hi + 1 - lo).toNat).map (fun (i : ℕ) => lo + (i : ℤ))

/-- Channel/weight accumulator used by the average, weighted and blur loops. -/
structure Accum where
  sumR : ℚ
  sumG : ℚ
  sumB : ℚ
  sumA : ℚ
  total : ℚ
deriving DecidableEq

/-- The all-zero accumulator. -/
def Accum.zero : Accum := ⟨0, 0, 0, 0, 0⟩

/-- State of the expanding-ring nearest search (8-bit): best squared
distance so far, best pixel so far, and whether the distance-1 early exit
(the goto in the source) has fired. -/
structure NearestState8 where
  nearestDistSq : ℤ
  nearestPixel : Option Pixel8
  found : Bool
deriving DecidableEq

/-- One ring of the 8-bit nearest search: scan the boundary cells of the
square ring, updating the best candidate; jump out on a distance-1 hit. -/
def nearestRingScan8 (info : ColorLinesInfo Pixel8) (x y : ℤ)
    (targetR targetG targetB : ℤ) (toleranceSq : ℚ) (ring : ℤ)
    (st : NearestState8) : NearestState8 :=
  let width := info.srcWorld.width
  let height := info.srcWorld.height
  (intRange (-ring) ring).foldl (fun s dy =>
    if s.found then s
    else
      let ny := y + dy
      if ny < 0 ∨ ny ≥ height then s
      else
        (intRange (-ring) ring).foldl (fun s2 dx =>
          if s2.found then s2
          else if dy ≠ -ring ∧ dy ≠ ring ∧ dx ≠ -ring ∧ dx ≠ ring then s2
          else
            let nx := x + dx
            if nx < 0 ∨ nx ≥ width then s2
            else
              let neighbor := info.srcWorld.data nx ny
              if info.ignoreTransparent = true ∧ neighbor.alpha < 255 then s2
              else if IsTargetColor8Fast neighbor targetR targetG targetB toleranceSq then s2
              else
                let distSq := dx * dx + dy * dy
                if distSq < s2.nearestDistSq then
                  ⟨distSq, some neighbor, decide (distSq = 1)⟩
                else s2) s) st

/-- Outer expanding-ring loop of the 8-bit nearest search; the fuel equals
the number of remaining ring iterations, and the two break conditions of
the source loop are re-checked before every ring. -/
def nearestSearch8 (info : ColorLinesInfo Pixel8) (x y : ℤ)
    (targetR targetG targetB : ℤ) (toleranceSq : ℚ) :
    ℕ → ℤ → NearestState8 → NearestState8
  | 0, _, st => st
  | Nat.succ fuel, ring, st =>
    if st.found then st
    else if ¬(ring ≤ info.searchRadius ∧ st.nearestDistSq > 1) then st
    else if ring * ring ≥ st.nearestDistSq then st
    else nearestSearch8 info x y targetR targetG targetB toleranceSq fuel (ring + 1)
      (nearestRingScan8 info x y targetR targetG targetB toleranceSq ring st)

/-- Accumulation loop of the 8-bit average/weighted fill: visit the square
window, skipping the center, out-of-bounds cells, transparent neighbors
(when configured) and neighbors matching the target color. -/
def fillWindowAccum8 (iw : ℤ → ℚ) (info : ColorLinesInfo Pixel8) (x y : ℤ)
    (targetR targetG targetB : ℤ) (toleranceSq : ℚ) : Accum :=
  let radius := info.searchRadius
  let width := info.srcWorld.width
  let height := info.srcWorld.height
  let weightSize := radius * 2 + 1
  (intRange (-radius) radius).foldl (fun acc dy =>
    let ny := y + dy
    if ny < 0 ∨ ny ≥ height then acc
    else
      let weightRowOffset := (dy + radius) * weightSize
      (intRange (-radius) radius).foldl (fun acc2 dx =>
        if dx = 0 ∧ dy = 0 then acc2
        else
          let nx := x + dx
          if nx < 0 ∨ nx ≥ width then acc2
          else
            let neighbor := info.srcWorld.data nx ny
            if info.ignoreTransparent = true ∧ neighbor.alpha < 255 then acc2
            else if IsTargetColor8Fast neighbor targetR targetG targetB toleranceSq then acc2
            else
              let weight := if info.fillMode = FILL_MODE_AVERAGE then 1
                else iw (weightRowOffset + dx + radius)
              ⟨acc2.sumR + neighbor.red * weight, acc2.sumG + neighbor.green * weight,
               acc2.sumB + neighbor.blue * weight, acc2.sumA + neighbor.alpha * weight,
               acc2.total + weight⟩) acc) Accum.zero

/-- FillLinePixel8: compute the replacement for an 8-bit line pixel with the
configured fill strategy, then apply the color adjustments. -/
def FillLinePixel8 (iw : ℤ → ℚ) (info : ColorLinesInfo Pixel8) (x y : ℤ)
    (inP : Pixel8) (targetR targetG targetB : ℤ) (toleranceSq : ℚ)
    (adj : ColorAdjustParams) : Pixel8 :=
  let outP :=
    if info.fillMode = FILL_MODE_NEAREST then
      let final := nearestSearch8 info x y targetR targetG targetB toleranceSq
        (info.searchRadius.toNat + 1) 1 ⟨999999, none, false⟩
      match final.nearestPixel with
      | some p => p
      | none => inP
    else
      let acc := fillWindowAccum8 iw info x y targetR targetG targetB toleranceSq
      if acc.total > 0 then
        let invWeight := 1 / acc.total
        ⟨ClampByte (acc.sumR * invWeight), ClampByte (acc.sumG * invWeight),
         ClampByte (acc.sumB * invWeight), ClampByte (acc.sumA * invWeight)⟩
      else inP
  ApplyColorAdjustments8Fast outP adj

/-- State of the expanding-ring nearest search, 16-bit variant. -/
structure NearestState16 where
  nearestDistSq : ℤ
  nearestPixel : Option Pixel16
  found : Bool
deriving DecidableEq

/-- One ring of the 16-bit nearest search. -/
def nearestRingScan16 (info : ColorLinesInfo Pixel16) (x y : ℤ)
    (targetR targetG targetB : ℚ) (toleranceSq : ℚ) (ring : ℤ)
    (st : NearestState16) : NearestState16 :=
  let width := info.srcWorld.width
  let height := info.srcWorld.height
  (intRange (-ring) ring).foldl (fun s dy =>
    if s.found then s
    else
      let ny := y + dy
      if ny < 0 ∨ ny ≥ height then s
      else
        (intRange (-ring) ring).foldl (fun s2 dx =>
          if s2.found then s2
          else if dy ≠ -ring ∧ dy ≠ ring ∧ dx ≠ -ring ∧ dx ≠ ring then s2
          else
            let nx := x + dx
            if nx < 0 ∨ nx ≥ width then s2
            else
              let neighbor := info.srcWorld.data nx ny
              if info.ignoreTransparent = true ∧ neighbor.alpha < PF_MAX_CHAN16 then s2
              else if IsTargetColor16Fast neighbor targetR targetG targetB toleranceSq then s2
              else
                let distSq := dx * dx + dy * dy
                if distSq < s2.nearestDistSq then
                  ⟨distSq, some neighbor, decide (distSq = 1)⟩
                else s2) s) st

/-- Outer expanding-ring loop of the 16-bit nearest search. -/
def nearestSearch16 (info : ColorLinesInfo Pixel16) (x y : ℤ)
    (targetR targetG targetB : ℚ) (toleranceSq : ℚ) :
    ℕ → ℤ → NearestState16 → NearestState16
  | 0, _, st => st
  | Nat.succ fuel, ring, st =>
    if st.found then st
    else if ¬(ring ≤ info.searchRadius ∧ st.nearestDistSq > 1) then st
    else if ring * ring ≥ st.nearestDistSq then st
    else nearestSearch16 info x y targetR targetG targetB toleranceSq fuel (ring + 1)
      (nearestRingScan16 info x y targetR targetG targetB toleranceSq ring st)

/-- Accumulation loop of the 16-bit average/weighted fill. -/
def fillWindowAccum16 (iw : ℤ → ℚ) (info : ColorLinesInfo Pixel16) (x y : ℤ)
    (targetR targetG targetB : ℚ) (toleranceSq : ℚ) : Accum :=
  let radius := info.searchRadius
  let width := info.srcWorld.width
  let height := info.srcWorld.height
  let weightSize := radius * 2 + 1
  (intRange (-radius) radius).foldl (fun acc dy =>
    let ny := y + dy
    if ny < 0 ∨ ny ≥ height then acc
    else
      let weightRowOffset := (dy + radius) * weightSize
      (intRange (-radius) radius).foldl (fun acc2 dx =>
        if dx = 0 ∧ dy = 0 then acc2
        else
          let nx := x + dx
          if nx < 0 ∨ nx ≥ width then acc2
          else
            let neighbor := info.srcWorld.data nx ny
            if info.ignoreTransparent = true ∧ neighbor.alpha < PF_MAX_CHAN16 then acc2
            else if IsTargetColor16Fast neighbor targetR targetG targetB toleranceSq then acc2
            else
              let weight := if info.fillMode = FILL_MODE_AVERAGE then 1
                else iw (weightRowOffset + dx + radius)
              ⟨acc2.sumR + neighbor.red * weight, acc2.sumG + neighbor.green * weight,
               acc2.sumB + neighbor.blue * weight, acc2.sumA + neighbor.alpha * weight,
               acc2.total + weight⟩) acc) Accum.zero

/-- FillLinePixel16: 16-bit line-pixel replacement plus color adjustments. -/
def FillLinePixel16 (iw : ℤ → ℚ) (info : ColorLinesInfo Pixel16) (x y : ℤ)
    (inP : Pixel16) (targetR targetG targetB : ℚ) (toleranceSq : ℚ)
    (adj : ColorAdjustParams) : Pixel16 :=
  let outP :=
    if info.fillMode = FILL_MODE_NEAREST then
      let final := nearestSearch16 info x y targetR targetG targetB toleranceSq
        (info.searchRadius.toNat + 1) 1 ⟨999999, none, false⟩
      match final.nearestPixel with
      | some p => p
      | none => inP
    else
      let acc := fillWindowAccum16 iw info x y targetR targetG targetB toleranceSq
      if acc.total > 0 then
        let invWeight := 1 / acc.total
        ⟨Clamp16 (acc.sumR * invWeight), Clamp16 (acc.sumG * invWeight),
         Clamp16 (acc.sumB * invWeight), Clamp16 (acc.sumA * invWeight)⟩
      else inP
  ApplyColorAdjustments16Fast outP adj

/-- State of the expanding-ring nearest search, float variant. -/
structure NearestStateF where
  nearestDistSq : ℤ
  nearestPixel : Option PixelF
  found : Bool
deriving DecidableEq

/-- One ring of the float nearest search. -/
def nearestRingScanF (info : ColorLinesInfo PixelF) (x y : ℤ)
    (targetR targetG targetB : ℚ) (toleranceSq : ℚ) (ring : ℤ)
    (st : NearestStateF) : NearestStateF :=
  let width := info.srcWorld.width
  let height := info.srcWorld.height
  (intRange (-ring) ring).foldl (fun s dy =>
    if s.found then s
    else
      let ny := y + dy
      if ny < 0 ∨ ny ≥ height then s
      else
        (intRange (-ring) ring).foldl (fun s2 dx =>
          if s2.found then s2
          else if dy ≠ -ring ∧ dy ≠ ring ∧ dx ≠ -ring ∧ dx ≠ ring then s2
          else
            let nx := x + dx
            if nx < 0 ∨ nx ≥ width then s2
            else
              let neighbor := info.srcWorld.data nx ny
              if info.ignoreTransparent = true ∧ neighbor.alpha < 1 then s2
              else if IsTargetColorFloatFast neighbor targetR targetG targetB toleranceSq then s2
              else
                let distSq := dx * dx + dy * dy
                if distSq < s2.nearestDistSq then
                  ⟨distSq, some neighbor, decide (distSq = 1)⟩
                else s2) s) st

/-- Outer expanding-ring loop of the float nearest search. -/
def nearestSearchF (info : ColorLinesInfo PixelF) (x y : ℤ)
    (targetR targetG targetB : ℚ) (toleranceSq : ℚ) :
    ℕ → ℤ → NearestStateF → NearestStateF
  | 0, _, st => st
  | Nat.succ fuel, ring, st =>
    if st.found then st
    else if ¬(ring ≤ info.searchRadius ∧ st.nearestDistSq > 1) then st
    else if ring * ring ≥ st.nearestDistSq then st
    else nearestSearchF info x y targetR targetG targetB toleranceSq fuel (ring + 1)
      (nearestRingScanF info x y targetR targetG targetB toleranceSq ring st)

/-- Accumulation loop of the float average/weighted fill. -/
def fillWindowAccumF (iw : ℤ → ℚ) (info : ColorLinesInfo PixelF) (x y : ℤ)
    (targetR targetG targetB : ℚ) (toleranceSq : ℚ) : Accum :=
  let radius := info.searchRadius
  let width := info.srcWorld.width
  let height := info.srcWorld.height
  let weightSize := radius * 2 + 1
  (intRange (-radius) radius).foldl (fun acc dy =>
    let ny := y + dy
    if ny < 0 ∨ ny ≥ height then acc
    else
      let weightRowOffset := (dy + radius) * weightSize
      (intRange (-radius) radius).foldl (fun acc2 dx =>
        if dx = 0 ∧ dy = 0 then acc2
        else
          let nx := x + dx
          if nx < 0 ∨ nx ≥ width then acc2
          else
            let neighbor := info.srcWorld.data nx ny
            if info.ignoreTransparent = true ∧ neighbor.alpha < 1 then acc2
            else if IsTargetColorFloatFast neighbor targetR targetG targetB toleranceSq then acc2
            else
              let weight := if info.fillMode = FILL_MODE_AVERAGE then 1
                else iw (weightRowOffset + dx + radius)
              ⟨acc2.sumR + neighbor.red * weight, acc2.sumG + neighbor.green * weight,
               acc2.sumB + neighbor.blue * weight, acc2.sumA + neighbor.alpha * weight,
               acc2.total + weight⟩) acc) Accum.zero

/-- FillLinePixelFloat: float line-pixel replacement plus color adjustments
(the quotient is written back without clamping, as in the source). -/
def FillLinePixelFloat (iw : ℤ → ℚ) (info : ColorLinesInfo PixelF) (x y : ℤ)
    (inP : PixelF) (targetR targetG targetB : ℚ) (toleranceSq : ℚ)
    (adj : ColorAdjustParams) : PixelF :=
  let outP :=
    if info.fillMode = FILL_MODE_NEAREST then
      let final := nearestSearchF info x y targetR targetG targetB toleranceSq
        (info.searchRadius.toNat + 1) 1 ⟨999999, none, false⟩
      match final.nearestPixel with
      | some p => p
      | none => inP
    else
      let acc := fillWindowAccumF iw info x y targetR targetG targetB toleranceSq
      if acc.total > 0 then
        let invWeight := 1 / acc.total
        ⟨acc.sumR * invWeight, acc.sumG * invWeight,
         acc.sumB * invWeight, acc.sumA * invWeight⟩
      else inP
  ApplyColorAdjustmentsFloatFast outP adj

/-- Per-frame ProcessingContext: precomputed scaled targets, squared
tolerances per bit depth, adjustment factors, edge margin and dimensions. -/
structure ProcessingContext (α : Type) where
  info : ColorLinesInfo α
  targetR8 : ℤ
  targetG8 : ℤ
  targetB8 : ℤ
  targetR16 : ℚ
  targetG16 : ℚ
  targetB16 : ℚ
  targetRF : ℚ
  targetGF : ℚ
  targetBF : ℚ
  toleranceSq8 : ℚ
  toleranceSq16 : ℚ
  toleranceSqF : ℚ
  colorAdj : ColorAdjustParams
  edgeMargin : ℤ
  width : ℤ
  height : ℤ

/-- InitProcessingContext: derive all per-frame constants from the
parameter bundle, exactly once per frame. -/
def InitProcessingContext {α : Type} (info : ColorLinesInfo α) : ProcessingContext α :=
  let maxDist8 : ℚ := info.tolerance * 4.4167
  let scale8to16 : ℚ := (PF_MAX_CHAN16 : ℚ) / 255
  let maxDist16 : ℚ := info.tolerance * 4.4167 * scale8to16
  let scale8toFloat : ℚ := 1 / 255
  let maxDistF : ℚ := info.tolerance * 4.4167 * scale8toFloat
  { info := info
    targetR8 := (info.targetColor.red : ℤ)
    targetG8 := (info.targetColor.green : ℤ)
    targetB8 := (info.targetColor.blue : ℤ)
    targetR16 := (info.targetColor.red : ℚ) * scale8to16
    targetG16 := (info.targetColor.green : ℚ) * scale8to16
    targetB16 := (info.targetColor.blue : ℚ) * scale8to16
    targetRF := (info.targetColor.red : ℚ) * scale8toFloat
    targetGF := (info.targetColor.green : ℚ) * scale8toFloat
    targetBF := (info.targetColor.blue : ℚ) * scale8toFloat
    toleranceSq8 := maxDist8 * maxDist8
    toleranceSq16 := maxDist16 * maxDist16
    toleranceSqF := maxDistF * maxDistF
    colorAdj := InitColorAdjustParams info
    edgeMargin := info.searchRadius
    width := info.srcWorld.width
    height := info.srcWorld.height }

/-- FillAndMask8_Optimized: the pass-1 per-pixel callback for 8-bit frames.
Returns the output pixel together with the mask byte written at (x, y). -/
def FillAndMask8 (iw : ℤ → ℚ) (ctx : ProcessingContext Pixel8) (xL yL : ℤ)
    (inP : Pixel8) : Pixel8 × ℕ :=
  let info := ctx.info
  if xL < ctx.edgeMargin ∨ yL < ctx.edgeMargin ∨
      xL ≥ ctx.width - ctx.edgeMargin ∨ yL ≥ ctx.height - ctx.edgeMargin then
    (inP, 0)
  else
    let isLine := IsTargetColor8Fast inP ctx.targetR8 ctx.targetG8 ctx.targetB8 ctx.toleranceSq8
    let mask : ℕ := if isLine then 255 else 0
    let outP :=
      if info.outputMode = OUTPUT_MODE_FULL then
        if isLine then
          FillLinePixel8 iw info xL yL inP ctx.targetR8 ctx.targetG8 ctx.targetB8
            ctx.toleranceSq8 ctx.colorAdj
        else inP
      else if info.outputMode = OUTPUT_MODE_LINE_ONLY then
        if isLine then
          let f := FillLinePixel8 iw info xL yL inP ctx.targetR8 ctx.targetG8 ctx.targetB8
            ctx.toleranceSq8 ctx.colorAdj
          { f with alpha := 255 }
        else ⟨0, 0, 0, 0⟩
      else if info.outputMode = OUTPUT_MODE_BG_ONLY then
        if isLine then ⟨0, 0, 0, 0⟩ else inP
      else inP
    (outP, mask)

/-- FillAndMask16_Optimized: the pass-1 per-pixel callback for 16-bit frames. -/
def FillAndMask16 (iw : ℤ → ℚ) (ctx : ProcessingContext Pixel16) (xL yL : ℤ)
    (inP : Pixel16) : Pixel16 × ℕ :=
  let info := ctx.info
  if xL < ctx.edgeMargin ∨ yL < ctx.edgeMargin ∨
      xL ≥ ctx.width - ctx.edgeMargin ∨ yL ≥ ctx.height - ctx.edgeMargin then
    (inP, 0)
  else
    let isLine := IsTargetColor16Fast inP ctx.targetR16 ctx.targetG16 ctx.targetB16 ctx.toleranceSq16
    let mask : ℕ := if isLine then 255 else 0
    let outP :=
      if info.outputMode = OUTPUT_MODE_FULL then
        if isLine then
          FillLinePixel16 iw info xL yL inP ctx.targetR16 ctx.targetG16 ctx.targetB16
            ctx.toleranceSq16 ctx.colorAdj
        else inP
      else if info.outputMode = OUTPUT_MODE_LINE_ONLY then
        if isLine then
          let f := FillLinePixel16 iw info xL yL inP ctx.targetR16 ctx.targetG16 ctx.targetB16
            ctx.toleranceSq16 ctx.colorAdj
          { f with alpha := PF_MAX_CHAN16 }
        else ⟨0, 0, 0, 0⟩
      else if info.outputMode = OUTPUT_MODE_BG_ONLY then
        if isLine then ⟨0, 0, 0, 0⟩ else inP
      else inP
    (outP, mask)

/-- FillAndMaskFloat_Optimized: the pass-1 per-pixel callback for float frames. -/
def FillAndMaskFloat (iw : ℤ → ℚ) (ctx : ProcessingContext PixelF) (xL yL : ℤ)
    (inP : PixelF) : PixelF × ℕ :=
  let info := ctx.info
  if xL < ctx.edgeMargin ∨ yL < ctx.edgeMargin ∨
      xL ≥ ctx.width - ctx.edgeMargin ∨ yL ≥ ctx.height - ctx.edgeMargin then
    (inP, 0)
  else
    let isLine := IsTargetColorFloatFast inP ctx.targetRF ctx.targetGF ctx.targetBF ctx.toleranceSqF
    let mask : ℕ := if isLine then 255 else 0
    let outP :=
      if info.outputMode = OUTPUT_MODE_FULL then
        if isLine then
          FillLinePixelFloat iw info xL yL inP ctx.targetRF ctx.targetGF ctx.targetBF
            ctx.toleranceSqF ctx.colorAdj
        else inP
      else if info.outputMode = OUTPUT_MODE_LINE_ONLY then
        if isLine then
          let f := FillLinePixelFloat iw info xL yL inP ctx.targetRF ctx.targetGF ctx.targetBF
            ctx.toleranceSqF ctx.colorAdj
          { f with alpha := 1 }
        else ⟨0, 0, 0, 0⟩
      else if info.outputMode = OUTPUT_MODE_BG_ONLY then
        if isLine then ⟨0, 0, 0, 0⟩ else inP
      else inP
    (outP, mask)

/-- BlurContext: parameter bundle of the blur pass (the snapshot world is
the copy of the pass-1 output the blur samples from). -/
structure BlurContext (α : Type) where
  info : ColorLinesInfo α
  tempWorld : World α
  blurRadius : ℤ
  blurSize : ℤ

/-- The accumulation loop of BlurPass8_Optimized, including the row-level
early-exit heuristic: a candidate row whose center-column mask is 0 is
scanned first, and skipped entirely when no cell of the row within the
window is masked. -/
def blurAccum8 (gw : ℤ → ℚ) (ctx : BlurContext Pixel8) (xL yL : ℤ) : Accum :=
  let info := ctx.info
  let blurRadius := ctx.blurRadius
  let blurSize := ctx.blurSize
  (intRange (-blurRadius) blurRadius).foldl (fun acc dy =>
    let ny := yL + dy
    if ny < 0 ∨ ny ≥ info.maskHeight then acc
    else if GetMaskAt info xL ny = 0 ∧
        ¬((intRange (-blurRadius) blurRadius).any
          (fun dx => decide (GetMaskAt info (xL + dx) ny ≠ 0))) then acc
    else
      let weightRowOffset := (dy + blurRadius) * blurSize
      (intRange (-blurRadius) blurRadius).foldl (fun acc2 dx =>
        let nx := xL + dx
        if nx < 0 ∨ nx ≥ info.maskWidth then acc2
        else if GetMaskAt info nx ny = 0 then acc2
        else
          let neighbor := ctx.tempWorld.data nx ny
          let weight := gw (weightRowOffset + dx + blurRadius)
          ⟨acc2.sumR + neighbor.red * weight, acc2.sumG + neighbor.green * weight,
           acc2.sumB + neighbor.blue * weight, acc2.sumA + neighbor.alpha * weight,
           acc2.total + weight⟩) acc) Accum.zero

/-- BlurPass8_Optimized: the pass-2 per-pixel callback for 8-bit frames.
The input pixel comes from the snapshot world, which is also the world the
iteration runs over. -/
def BlurPass8 (gw : ℤ → ℚ) (ctx : BlurContext Pixel8) (xL yL : ℤ)
    (inP : Pixel8) : Pixel8 :=
  if GetMaskAt ctx.info xL yL = 0 then inP
  else
    let acc := blurAccum8 gw ctx xL yL
    if acc.total > 0 then
      let invWeight := 1 / acc.total
      ⟨ClampByte (acc.sumR * invWeight), ClampByte (acc.sumG * invWeight),
       ClampByte (acc.sumB * invWeight), ClampByte (acc.sumA * invWeight)⟩
    else inP

/-- The accumulation loop of BlurPass8 with the row-level early-exit
heuristic removed: the loop structure of the 16-bit and float blur paths,
applied to the 8-bit data. Used to state that the heuristic is
result-neutral. -/
def blurAccum8NoSkip (gw : ℤ → ℚ) (ctx : BlurContext Pixel8) (xL yL : ℤ) : Accum :=
  let info := ctx.info
  let blurRadius := ctx.blurRadius
  let blurSize := ctx.blurSize
  (intRange (-blurRadius) blurRadius).foldl (fun acc dy =>
    let ny := yL + dy
    if ny < 0 ∨ ny ≥ info.maskHeight then acc
    else
      let weightRowOffset := (dy + blurRadius) * blurSize
      (intRange (-blurRadius) blurRadius).foldl (fun acc2 dx =>
        let nx := xL + dx
        if nx < 0 ∨ nx ≥ info.maskWidth then acc2
        else if GetMaskAt info nx ny = 0 then acc2
        else
          let neighbor := ctx.tempWorld.data nx ny
          let weight := gw (weightRowOffset + dx + blurRadius)
          ⟨acc2.sumR + neighbor.red * weight, acc2.sumG + neighbor.green * weight,
           acc2.sumB + neighbor.blue * weight, acc2.sumA + neighbor.alpha * weight,
           acc2.total + weight⟩) acc) Accum.zero

/-- BlurPass8 with the heuristic-free accumulation (the 16-bit/float loop
structure on 8-bit data). -/
def BlurPass8NoSkip (gw : ℤ → ℚ) (ctx : BlurContext Pixel8) (xL yL : ℤ)
    (inP : Pixel8) : Pixel8 :=
  if GetMaskAt ctx.info xL yL = 0 then inP
  else
    let acc := blurAccum8NoSkip gw ctx xL yL
    if acc.total > 0 then
      let invWeight := 1 / acc.total
      ⟨ClampByte (acc.sumR * invWeight), ClampByte (acc.sumG * invWeight),
       ClampByte (acc.sumB * invWeight), ClampByte (acc.sumA * invWeight)⟩
    else inP

/-- The accumulation loop of BlurPass16_Optimized (no row-level heuristic). -/
def blurAccum16 (gw : ℤ → ℚ) (ctx : BlurContext Pixel16) (xL yL : ℤ) : Accum :=
  let info := ctx.info
  let blurRadius := ctx.blurRadius
  let blurSize := ctx.blurSize
  (intRange (-blurRadius) blurRadius).foldl (fun acc dy =>
    let ny := yL + dy
    if ny < 0 ∨ ny ≥ info.maskHeight then acc
    else
      let weightRowOffset := (dy + blurRadius) * blurSize
      (intRange (-blurRadius) blurRadius).foldl (fun acc2 dx =>
        let nx := xL + dx
        if nx < 0 ∨ nx ≥ info.maskWidth then acc2
        else if GetMaskAt info nx ny = 0 then acc2
        else
          let neighbor := ctx.tempWorld.data nx ny
          let weight := gw (weightRowOffset + dx + blurRadius)
          ⟨acc2.sumR + neighbor.red * weight, acc2.sumG + neighbor.green * weight,
           acc2.sumB + neighbor.blue * weight, acc2.sumA + neighbor.alpha * weight,
           acc2.total + weight⟩) acc) Accum.zero

/-- BlurPass16_Optimized: the pass-2 per-pixel callback for 16-bit frames. -/
def BlurPass16 (gw : ℤ → ℚ) (ctx : BlurContext Pixel16) (xL yL : ℤ)
    (inP : Pixel16) : Pixel16 :=
  if GetMaskAt ctx.info xL yL = 0 then inP
  else
    let acc := blurAccum16 gw ctx xL yL
    if acc.total > 0 then
      let invWeight := 1 / acc.total
      ⟨Clamp16 (acc.sumR * invWeight), Clamp16 (acc.sumG * invWeight),
       Clamp16 (acc.sumB * invWeight), Clamp16 (acc.sumA * invWeight)⟩
    else inP

/-- The accumulation loop of BlurPassFloat_Optimized (no row-level heuristic). -/
def blurAccumF (gw : ℤ → ℚ) (ctx : BlurContext PixelF) (xL yL : ℤ) : Accum :=
  let info := ctx.info
  let blurRadius := ctx.blurRadius
  let blurSize := ctx.blurSize
  (intRange (-blurRadius) blurRadius).foldl (fun acc dy =>
    let ny := yL + dy
    if ny < 0 ∨ ny ≥ info.maskHeight then acc
    else
      let weightRowOffset := (dy + blurRadius) * blurSize
      (intRange (-blurRadius) blurRadius).foldl (fun acc2 dx =>
        let nx := xL + dx
        if nx < 0 ∨ nx ≥ info.maskWidth then acc2
        else if GetMaskAt info nx ny = 0 then acc2
        else
          let neighbor := ctx.tempWorld.data nx ny
          let weight := gw (weightRowOffset + dx + blurRadius)
          ⟨acc2.sumR + neighbor.red * weight, acc2.sumG + neighbor.green * weight,
           acc2.sumB + neighbor.blue * weight, acc2.sumA + neighbor.alpha * weight,
           acc2.total + weight⟩) acc) Accum.zero

/-- BlurPassFloat_Optimized: the pass-2 per-pixel callback for float frames
(quotient written back without clamping). -/
def BlurPassFloat (gw : ℤ → ℚ) (ctx : BlurContext PixelF) (xL yL : ℤ)
    (inP : PixelF) : PixelF :=
  if GetMaskAt ctx.info xL yL = 0 then inP
  else
    let acc := blurAccumF gw ctx xL yL
    if acc.total > 0 then
      let invWeight := 1 / acc.total
      ⟨acc.sumR * invWeight, acc.sumG * invWeight,
       acc.sumB * invWeight, acc.sumA * invWeight⟩
    else inP

/-- The C cast of a double to A_long: truncation toward zero. -/
def truncQ (q : ℚ) : ℤ := if q < 0 then -⌊-q⌋ else ⌊q⌋

/-- The exact value stored by PrecomputeGaussianWeights at offset (dx, dy)
for a given radius: exp(-(dx^2+dy^2) / (2 radius^2)). -/
noncomputable def gaussianWeightR (blurRadius dx dy : ℤ) : ℝ :=
  Real.exp (-((dx * dx + dy * dy : ℤ) : ℝ) / (2 * (blurRadius : ℝ) * (blurRadius : ℝ)))

/-- The pass-1 output frame for an 8-bit render (SmartRender, first
iterate call, with the weight-table state iw). -/
def Pass1Out8 (iw : ℤ → ℚ) (info : ColorLinesInfo Pixel8) : ℤ → ℤ → Pixel8 :=
  fun x y => (FillAndMask8 iw (InitProcessingContext info) x y (info.srcWorld.data x y)).1

/-- The line mask built by pass 1 for an 8-bit render. -/
def Pass1Mask8 (iw : ℤ → ℚ) (info : ColorLinesInfo Pixel8) : ℤ → ℤ → ℕ :=
  fun x y => (FillAndMask8 iw (InitProcessingContext info) x y (info.srcWorld.data x y)).2

/-- SmartRender for an 8-bit frame: pass 1, then, exactly when the derived
blur radius (the A_long cast of sampleBlur / 10) is at least 1, the blur
pass over a snapshot of the pass-1 output; gw is the gaussian-table state
after PrecomputeGaussianWeights. The mask dimensions are those of the
output world, as set by SmartRender before pass 1. -/
def SmartRender8 (iw gw : ℤ → ℚ) (info : ColorLinesInfo Pixel8) : ℤ → ℤ → Pixel8 :=
  let blurRadius := truncQ (info.sampleBlur / 10)
  if 1 ≤ blurRadius then
    let info2 := { info with
      lineMask := Pass1Mask8 iw info
      maskWidth := info.srcWorld.width
      maskHeight := info.srcWorld.height }
    let tempWorld : World Pixel8 := ⟨info.srcWorld.width, info.srcWorld.height, Pass1Out8 iw info⟩
    let bctx : BlurContext Pixel8 := ⟨info2, tempWorld, blurRadius, blurRadius * 2 + 1⟩
    fun x y => BlurPass8 gw bctx x y (Pass1Out8 iw info x y)
  else Pass1Out8 iw info

/-- Membership in an inclusive integer range. -/
theorem mem_intRange {lo hi m : ℤ} : m ∈ intRange lo hi ↔ lo ≤ m ∧ m ≤ hi := by
  unfold intRange
  constructor
  · intro h1
    obtain ⟨i, h2, rfl⟩ := List.mem_map.mp h1
    have h3 := List.mem_range.mp h2
    omega
  · intro h
    apply List.mem_map.mpr
    refine ⟨(m - lo).toNat, List.mem_range.mpr (by omega), by omega⟩

/-- A left fold whose step fixes every state on every list element is the
identity. -/
theorem foldl_fix {α β : Type} (f : α → β → α) (l : List β) (a : α)
    (h : ∀ s, ∀ x ∈ l, f s x = s) : l.foldl f a = a := by
  induction l generalizing a with
  | nil => rfl
  | cons y ys ih =>
    rw [List.foldl_cons, h a y (by simp)]
    exact ih a (fun s x hx => h s x (by simp [hx]))

/-- Two left folds agree when their steps agree on every list element. -/
theorem foldl_congr_mem {α β : Type} (f g : α → β → α) (l : List β) (a : α)
    (h : ∀ s, ∀ x ∈ l, f s x = g s x) : l.foldl f a = l.foldl g a := by
  induction l generalizing a with
  | nil => rfl
  | cons y ys ih =>
    rw [List.foldl_cons, List.foldl_cons, h a y (by simp)]
    exact ih (g a y) (fun s x hx => h s x (by simp [hx]))

/-- Shared all-zero weight-table fixture for concrete instances. -/
def zeroTable : ℤ → ℚ := fun _ => 0

/-- Shared all-one weight-table fixture for concrete instances. -/
def oneTable : ℤ → ℚ := fun _ => 1

/-- C1: for each bit depth, the color matcher returns true if and only if
the squared Euclidean RGB distance between the pixel and the
(bit-depth-scaled) target color is at most the squared tolerance; in
particular a pixel at distance exactly the tolerance is a match (the
comparison is not strict). -/
theorem C1_color_matcher :
    (∀ (p : Pixel8) (tR tG tB : ℤ) (tolSq : ℚ),
      IsTargetColor8Fast p tR tG tB tolSq = true ↔
        (((((p.red : ℤ) - tR) * ((p.red : ℤ) - tR) +
           ((p.green : ℤ) - tG) * ((p.green : ℤ) - tG) +
           ((p.blue : ℤ) - tB) * ((p.blue : ℤ) - tB) : ℤ) : ℚ) ≤ tolSq)) ∧
    (∀ (p : Pixel16) (tR tG tB tolSq : ℚ),
      IsTargetColor16Fast p tR tG tB tolSq = true ↔
        (((p.red : ℚ) - tR) * ((p.red : ℚ) - tR) +
         ((p.green : ℚ) - tG) * ((p.green : ℚ) - tG) +
         ((p.blue : ℚ) - tB) * ((p.blue : ℚ) - tB) ≤ tolSq)) ∧
    (∀ (p : PixelF) (tR tG tB tolSq : ℚ),
      IsTargetColorFloatFast p tR tG tB tolSq = true ↔
        ((p.red - tR) * (p.red - tR) + (p.green - tG) * (p.green - tG) +
         (p.blue - tB) * (p.blue - tB) ≤ tolSq)) ∧
    (∀ (p : Pixel8) (tR tG tB : ℤ) (tolSq : ℚ),
      (((((p.red : ℤ) - tR) * ((p.red : ℤ) - tR) +
         ((p.green : ℤ) - tG) * ((p.green : ℤ) - tG) +
         ((p.blue : ℤ) - tB) * ((p.blue : ℤ) - tB) : ℤ) : ℚ) = tolSq) →
      IsTargetColor8Fast p tR tG tB tolSq = true) := by
  refine ⟨?_, ?_, ?_, ?_⟩
  · intro p tR tG tB tolSq
    simp [IsTargetColor8Fast]
  · intro p tR tG tB tolSq
    simp [IsTargetColor16Fast]
  · intro p tR tG tB tolSq
    simp [IsTargetColorFloatFast]
  · intro p tR tG tB tolSq h
    have h2 := h.le
    simp only [IsTargetColor8Fast, decide_eq_true_eq]
    push_cast at h2 ⊢
    linarith

/-- C1 witness: an 8-bit pixel at squared distance exactly the squared
tolerance (distance 10, tolerance 10) is a match. -/
theorem C1_color_matcher_witness :
    IsTargetColor8Fast ⟨10, 0, 0, 255⟩ 0 0 0 100 = true :=
  C1_color_matcher.2.2.2 ⟨10, 0, 0, 255⟩ 0 0 0 100 (by norm_num)

/-- The edge margin of the processing context is the configured search radius. -/
theorem initCtx_edgeMargin {α : Type} (info : ColorLinesInfo α) :
    (InitProcessingContext info).edgeMargin = info.searchRadius := rfl

/-- The context width is the source-world width. -/
theorem initCtx_width {α : Type} (info : ColorLinesInfo α) :
    (InitProcessingContext info).width = info.srcWorld.width := rfl

/-- The context height is the source-world height. -/
theorem initCtx_height {α : Type} (info : ColorLinesInfo α) :
    (InitProcessingContext info).height = info.srcWorld.height := rfl

/-- The context carries the parameter bundle unchanged. -/
theorem initCtx_info {α : Type} (info : ColorLinesInfo α) :
    (InitProcessingContext info).info = info := rfl

/-- C2: for every pixel within searchRadius of any image border, the pass-1
callback outputs the input pixel unchanged and writes mask value 0,
regardless of the pixel's color, in all three bit depths. -/
theorem C2_edge_passthrough :
    (∀ (iw : ℤ → ℚ) (info : ColorLinesInfo Pixel8) (x y : ℤ) (inP : Pixel8),
      (x < info.searchRadius ∨ y < info.searchRadius ∨
        x ≥ info.srcWorld.width - info.searchRadius ∨
        y ≥ info.srcWorld.height - info.searchRadius) →
      FillAndMask8 iw (InitProcessingContext info) x y inP = (inP, 0)) ∧
    (∀ (iw : ℤ → ℚ) (info : ColorLinesInfo Pixel16) (x y : ℤ) (inP : Pixel16),
      (x < info.searchRadius ∨ y < info.searchRadius ∨
        x ≥ info.srcWorld.width - info.searchRadius ∨
        y ≥ info.srcWorld.height - info.searchRadius) →
      FillAndMask16 iw (InitProcessingContext info) x y inP = (inP, 0)) ∧
    (∀ (iw : ℤ → ℚ) (info : ColorLinesInfo PixelF) (x y : ℤ) (inP : PixelF),
      (x < info.searchRadius ∨ y < info.searchRadius ∨
        x ≥ info.srcWorld.width - info.searchRadius ∨
        y ≥ info.srcWorld.height - info.searchRadius) →
      FillAndMaskFloat iw (InitProcessingContext info) x y inP = (inP, 0)) := by
  refine ⟨?_, ?_, ?_⟩
  · intro iw info x y inP h
    simp only [FillAndMask8, initCtx_edgeMargin, initCtx_width, initCtx_height]
    rw [if_pos h]
  · intro iw info x y inP h
    simp only [FillAndMask16, initCtx_edgeMargin, initCtx_width, initCtx_height]
    rw [if_pos h]
  · intro iw info x y inP h
    simp only [FillAndMaskFloat, initCtx_edgeMargin, initCtx_width, initCtx_height]
    rw [if_pos h]

/-- Shared 3x3 all-black 8-bit fixture world. -/
def world8A : World Pixel8 := ⟨3, 3, fun _ _ => ⟨0, 0, 0, 255⟩⟩

/-- Shared 3x3 all-black 16-bit fixture world. -/
def world16A : World Pixel16 := ⟨3, 3, fun _ _ => ⟨0, 0, 0, PF_MAX_CHAN16⟩⟩

/-- Shared 3x3 all-black float fixture world. -/
def worldFA : World PixelF := ⟨3, 3, fun _ _ => ⟨0, 0, 0, 1⟩⟩

/-- Shared 8-bit fixture parameters: black target, tolerance 10, average
fill, radius 1, full output, no adjustments. -/
def info8A : ColorLinesInfo Pixel8 :=
  { targetColor := ⟨0, 0, 0, 255⟩
    tolerance := 10
    fillMode := FILL_MODE_AVERAGE
    searchRadius := 1
    ignoreTransparent := false
    sampleBlur := 0
    brightness := 0
    contrast := 0
    saturation := 0
    outputMode := OUTPUT_MODE_FULL
    srcWorld := world8A
    lineMask := fun _ _ => 0
    maskWidth := 3
    maskHeight := 3 }

/-- Shared 16-bit fixture parameters. -/
def info16A : ColorLinesInfo Pixel16 :=
  { targetColor := ⟨0, 0, 0, 255⟩
    tolerance := 10
    fillMode := FILL_MODE_AVERAGE
    searchRadius := 1
    ignoreTransparent := false
    sampleBlur := 0
    brightness := 0
    contrast := 0
    saturation := 0
    outputMode := OUTPUT_MODE_FULL
    srcWorld := world16A
    lineMask := fun _ _ => 0
    maskWidth := 3
    maskHeight := 3 }

/-- Shared float fixture parameters. -/
def infoFA : ColorLinesInfo PixelF :=
  { targetColor := ⟨0, 0, 0, 255⟩
    tolerance := 10
    fillMode := FILL_MODE_AVERAGE
    searchRadius := 1
    ignoreTransparent := false
    sampleBlur := 0
    brightness := 0
    contrast := 0
    saturation := 0
    outputMode := OUTPUT_MODE_FULL
    srcWorld := worldFA
    lineMask := fun _ _ => 0
    maskWidth := 3
    maskHeight := 3 }

/-- C2 witness: the corner pixel (0,0) of a 3x3 frame with search radius 1
is passed through with mask 0 in all three bit depths. -/
theorem C2_edge_passthrough_witness :
    FillAndMask8 zeroTable (InitProcessingContext info8A) 0 0 ⟨7, 8, 9, 10⟩ = (⟨7, 8, 9, 10⟩, 0) ∧
    FillAndMask16 zeroTable (InitProcessingContext info16A) 0 0 ⟨7, 8, 9, 10⟩ = (⟨7, 8, 9, 10⟩, 0) ∧
    FillAndMaskFloat zeroTable (InitProcessingContext infoFA) 0 0 ⟨7, 8, 9, 10⟩ = (⟨7, 8, 9, 10⟩, 0) :=
  ⟨C2_edge_passthrough.1 zeroTable info8A 0 0 ⟨7, 8, 9, 10⟩ (Or.inl (by decide)),
   C2_edge_passthrough.2.1 zeroTable info16A 0 0 ⟨7, 8, 9, 10⟩ (Or.inl (by decide)),
   C2_edge_passthrough.2.2 zeroTable infoFA 0 0 ⟨7, 8, 9, 10⟩ (Or.inl (by decide))⟩

/-- The pass-1 output frame for a 16-bit render. -/
def Pass1Out16 (iw : ℤ → ℚ) (info : ColorLinesInfo Pixel16) : ℤ → ℤ → Pixel16 :=
  fun x y => (FillAndMask16 iw (InitProcessingContext info) x y (info.srcWorld.data x y)).1

/-- The line mask built by pass 1 for a 16-bit render. -/
def Pass1Mask16 (iw : ℤ → ℚ) (info : ColorLinesInfo Pixel16) : ℤ → ℤ → ℕ :=
  fun x y => (FillAndMask16 iw (InitProcessingContext info) x y (info.srcWorld.data x y)).2

/-- The pass-1 output frame for a float render. -/
def Pass1OutF (iw : ℤ → ℚ) (info : ColorLinesInfo PixelF) : ℤ → ℤ → PixelF :=
  fun x y => (FillAndMaskFloat iw (InitProcessingContext info) x y (info.srcWorld.data x y)).1

/-- The line mask built by pass 1 for a float render. -/
def Pass1MaskF (iw : ℤ → ℚ) (info : ColorLinesInfo PixelF) : ℤ → ℤ → ℕ :=
  fun x y => (FillAndMaskFloat iw (InitProcessingContext info) x y (info.srcWorld.data x y)).2

/-- SmartRender for a 16-bit frame (same orchestration as the 8-bit path). -/
def SmartRender16 (iw gw : ℤ → ℚ) (info : ColorLinesInfo Pixel16) : ℤ → ℤ → Pixel16 :=
  let blurRadius := truncQ (info.sampleBlur / 10)
  if 1 ≤ blurRadius then
    let info2 := { info with
      lineMask := Pass1Mask16 iw info
      maskWidth := info.srcWorld.width
      maskHeight := info.srcWorld.height }
    let tempWorld : World Pixel16 := ⟨info.srcWorld.width, info.srcWorld.height, Pass1Out16 iw info⟩
    let bctx : BlurContext Pixel16 := ⟨info2, tempWorld, blurRadius, blurRadius * 2 + 1⟩
    fun x y => BlurPass16 gw bctx x y (Pass1Out16 iw info x y)
  else Pass1Out16 iw info

/-- SmartRender for a float frame (same orchestration as the 8-bit path). -/
def SmartRenderF (iw gw : ℤ → ℚ) (info : ColorLinesInfo PixelF) : ℤ → ℤ → PixelF :=
  let blurRadius := truncQ (info.sampleBlur / 10)
  if 1 ≤ blurRadius then
    let info2 := { info with
      lineMask := Pass1MaskF iw info
      maskWidth := info.srcWorld.width
      maskHeight := info.srcWorld.height }
    let tempWorld : World PixelF := ⟨info.srcWorld.width, info.srcWorld.height, Pass1OutF iw info⟩
    let bctx : BlurContext PixelF := ⟨info2, tempWorld, blurRadius, blurRadius * 2 + 1⟩
    fun x y => BlurPassFloat gw bctx x y (Pass1OutF iw info x y)
  else Pass1OutF iw info

/-- C5: for every pixel whose line-mask value is 0, the blur-pass callback
copies its input (the snapshot of the pass-1 output at that pixel)
through unchanged, in all three bit depths; and the mask built by pass 1
only takes the values 0 and 255, so all other pixels are exactly those
with mask value 255. -/
theorem C5_blur_mask_zero :
    (∀ (gw : ℤ → ℚ) (ctx : BlurContext Pixel8) (x y : ℤ) (inP : Pixel8),
      GetMaskAt ctx.info x y = 0 → BlurPass8 gw ctx x y inP = inP) ∧
    (∀ (gw : ℤ → ℚ) (ctx : BlurContext Pixel16) (x y : ℤ) (inP : Pixel16),
      GetMaskAt ctx.info x y = 0 → BlurPass16 gw ctx x y inP = inP) ∧
    (∀ (gw : ℤ → ℚ) (ctx : BlurContext PixelF) (x y : ℤ) (inP : PixelF),
      GetMaskAt ctx.info x y = 0 → BlurPassFloat gw ctx x y inP = inP) ∧
    (∀ (iw : ℤ → ℚ) (info : ColorLinesInfo Pixel8) (x y : ℤ),
      Pass1Mask8 iw info x y = 0 ∨ Pass1Mask8 iw info x y = 255) ∧
    (∀ (iw : ℤ → ℚ) (info : ColorLinesInfo Pixel16) (x y : ℤ),
      Pass1Mask16 iw info x y = 0 ∨ Pass1Mask16 iw info x y = 255) ∧
    (∀ (iw : ℤ → ℚ) (info : ColorLinesInfo PixelF) (x y : ℤ),
      Pass1MaskF iw info x y = 0 ∨ Pass1MaskF iw info x y = 255) := by
  refine ⟨?_, ?_, ?_, ?_, ?_, ?_⟩
  · intro gw ctx x y inP h
    simp [BlurPass8, h]
  · intro gw ctx x y inP h
    simp [BlurPass16, h]
  · intro gw ctx x y inP h
    simp [BlurPassFloat, h]
  · intro iw info x y
    simp only [Pass1Mask8, FillAndMask8]
    split_ifs <;> simp
  · intro iw info x y
    simp only [Pass1Mask16, FillAndMask16]
    split_ifs <;> simp
  · intro iw info x y
    simp only [Pass1MaskF, FillAndMaskFloat]
    split_ifs <;> simp

/-- C5 witness: on a 3x3 frame whose mask is identically 0, the blur
callback returns its input at (1,1) in all three bit depths, and the pass-1
mask value at (1,1) is 0 or 255. -/
theorem C5_blur_mask_zero_witness :
    BlurPass8 oneTable ⟨info8A, world8A, 1, 3⟩ 1 1 ⟨7, 8, 9, 10⟩ = ⟨7, 8, 9, 10⟩ ∧
    BlurPass16 oneTable ⟨info16A, world16A, 1, 3⟩ 1 1 ⟨7, 8, 9, 10⟩ = ⟨7, 8, 9, 10⟩ ∧
    BlurPassFloat oneTable ⟨infoFA, worldFA, 1, 3⟩ 1 1 ⟨7, 8, 9, 10⟩ = ⟨7, 8, 9, 10⟩ ∧
    (Pass1Mask8 zeroTable info8A 1 1 = 0 ∨ Pass1Mask8 zeroTable info8A 1 1 = 255) :=
  ⟨C5_blur_mask_zero.1 oneTable ⟨info8A, world8A, 1, 3⟩ 1 1 ⟨7, 8, 9, 10⟩ rfl,
   C5_blur_mask_zero.2.1 oneTable ⟨info16A, world16A, 1, 3⟩ 1 1 ⟨7, 8, 9, 10⟩ rfl,
   C5_blur_mask_zero.2.2.1 oneTable ⟨infoFA, worldFA, 1, 3⟩ 1 1 ⟨7, 8, 9, 10⟩ rfl,
   C5_blur_mask_zero.2.2.2.1 zeroTable info8A 1 1⟩

/-- C3 (amended): in LineOnly mode every pixel lying outside the edge
margin whose pass-1 mask value is 0 has output alpha 0 (edge-margin pixels
are passed through unchanged and keep their input alpha); in
BackgroundOnly mode every pixel whose pass-1 mask value is 255 has output
alpha 0, with no restriction. Holds in all three bit depths. -/
theorem C3_output_mode_alpha :
    (∀ (iw : ℤ → ℚ) (info : ColorLinesInfo Pixel8) (x y : ℤ) (inP : Pixel8),
      ¬(x < info.searchRadius ∨ y < info.searchRadius ∨
        x ≥ info.srcWorld.width - info.searchRadius ∨
        y ≥ info.srcWorld.height - info.searchRadius) →
      info.outputMode = OUTPUT_MODE_LINE_ONLY →
      (FillAndMask8 iw (InitProcessingContext info) x y inP).2 = 0 →
      (FillAndMask8 iw (InitProcessingContext info) x y inP).1.alpha = 0) ∧
    (∀ (iw : ℤ → ℚ) (info : ColorLinesInfo Pixel8) (x y : ℤ) (inP : Pixel8),
      info.outputMode = OUTPUT_MODE_BG_ONLY →
      (FillAndMask8 iw (InitProcessingContext info) x y inP).2 = 255 →
      (FillAndMask8 iw (InitProcessingContext info) x y inP).1.alpha = 0) ∧
    (∀ (iw : ℤ → ℚ) (info : ColorLinesInfo Pixel16) (x y : ℤ) (inP : Pixel16),
      ¬(x < info.searchRadius ∨ y < info.searchRadius ∨
        x ≥ info.srcWorld.width - info.searchRadius ∨
        y ≥ info.srcWorld.height - info.searchRadius) →
      info.outputMode = OUTPUT_MODE_LINE_ONLY →
      (FillAndMask16 iw (InitProcessingContext info) x y inP).2 = 0 →
      (FillAndMask16 iw (InitProcessingContext info) x y inP).1.alpha = 0) ∧
    (∀ (iw : ℤ → ℚ) (info : ColorLinesInfo Pixel16) (x y : ℤ) (inP : Pixel16),
      info.outputMode = OUTPUT_MODE_BG_ONLY →
      (FillAndMask16 iw (InitProcessingContext info) x y inP).2 = 255 →
      (FillAndMask16 iw (InitProcessingContext info) x y inP).1.alpha = 0) ∧
    (∀ (iw : ℤ → ℚ) (info : ColorLinesInfo PixelF) (x y : ℤ) (inP : PixelF),
      ¬(x < info.searchRadius ∨ y < info.searchRadius ∨
        x ≥ info.srcWorld.width - info.searchRadius ∨
        y ≥ info.srcWorld.height - info.searchRadius) →
      info.outputMode = OUTPUT_MODE_LINE_ONLY →
      (FillAndMaskFloat iw (InitProcessingContext info) x y inP).2 = 0 →
      (FillAndMaskFloat iw (InitProcessingContext info) x y inP).1.alpha = 0) ∧
    (∀ (iw : ℤ → ℚ) (info : ColorLinesInfo PixelF) (x y : ℤ) (inP : PixelF),
      info.outputMode = OUTPUT_MODE_BG_ONLY →
      (FillAndMaskFloat iw (InitProcessingContext info) x y inP).2 = 255 →
      (FillAndMaskFloat iw (InitProcessingContext info) x y inP).1.alpha = 0) := by
  refine ⟨?_, ?_, ?_, ?_, ?_, ?_⟩
  · intro iw info x y inP hedge hmode hmask
    simp only [FillAndMask8, initCtx_edgeMargin, initCtx_width, initCtx_height,
      initCtx_info] at hmask ⊢
    rw [if_neg hedge] at hmask ⊢
    by_cases hl : IsTargetColor8Fast inP (InitProcessingContext info).targetR8
        (InitProcessingContext info).targetG8 (InitProcessingContext info).targetB8
        (InitProcessingContext info).toleranceSq8 = true
    · simp [hl] at hmask
    · simp only [Bool.not_eq_true] at hl
      simp [hl, hmode, OUTPUT_MODE_FULL, OUTPUT_MODE_LINE_ONLY]
  · intro iw info x y inP hmode hmask
    simp only [FillAndMask8, initCtx_edgeMargin, initCtx_width, initCtx_height,
      initCtx_info] at hmask ⊢
    by_cases hedge : (x < info.searchRadius ∨ y < info.searchRadius ∨
        x ≥ info.srcWorld.width - info.searchRadius ∨
        y ≥ info.srcWorld.height - info.searchRadius)
    · rw [if_pos hedge] at hmask
      simp at hmask
    · rw [if_neg hedge] at hmask ⊢
      by_cases hl : IsTargetColor8Fast inP (InitProcessingContext info).targetR8
          (InitProcessingContext info).targetG8 (InitProcessingContext info).targetB8
          (InitProcessingContext info).toleranceSq8 = true
      · simp [hl, hmode, OUTPUT_MODE_FULL, OUTPUT_MODE_LINE_ONLY, OUTPUT_MODE_BG_ONLY]
      · simp only [Bool.not_eq_true] at hl
        simp [hl] at hmask
  · intro iw info x y inP hedge hmode hmask
    simp only [FillAndMask16, initCtx_edgeMargin, initCtx_width, initCtx_height,
      initCtx_info] at hmask ⊢
    rw [if_neg hedge] at hmask ⊢
    by_cases hl : IsTargetColor16Fast inP (InitProcessingContext info).targetR16
        (InitProcessingContext info).targetG16 (InitProcessingContext info).targetB16
        (InitProcessingContext info).toleranceSq16 = true
    · simp [hl] at hmask
    · simp only [Bool.not_eq_true] at hl
      simp [hl, hmode, OUTPUT_MODE_FULL, OUTPUT_MODE_LINE_ONLY]
  · intro iw info x y inP hmode hmask
    simp only [FillAndMask16, initCtx_edgeMargin, initCtx_width, initCtx_height,
      initCtx_info] at hmask ⊢
    by_cases hedge : (x < info.searchRadius ∨ y < info.searchRadius ∨
        x ≥ info.srcWorld.width - info.searchRadius ∨
        y ≥ info.srcWorld.height - info.searchRadius)
    · rw [if_pos hedge] at hmask
      simp at hmask
    · rw [if_neg hedge] at hmask ⊢
      by_cases hl : IsTargetColor16Fast inP (InitProcessingContext info).targetR16
          (InitProcessingContext info).targetG16 (InitProcessingContext info).targetB16
          (InitProcessingContext info).toleranceSq16 = true
      · simp [hl, hmode, OUTPUT_MODE_FULL, OUTPUT_MODE_LINE_ONLY, OUTPUT_MODE_BG_ONLY]
      · simp only [Bool.not_eq_true] at hl
        simp [hl] at hmask
  · intro iw info x y inP hedge hmode hmask
    simp only [FillAndMaskFloat, initCtx_edgeMargin, initCtx_width, initCtx_height,
      initCtx_info] at hmask ⊢
    rw [if_neg hedge] at hmask ⊢
    by_cases hl : IsTargetColorFloatFast inP (InitProcessingContext info).targetRF
        (InitProcessingContext info).targetGF (InitProcessingContext info).targetBF
        (InitProcessingContext info).toleranceSqF = true
    · simp [hl] at hmask
    · simp only [Bool.not_eq_true] at hl
      simp [hl, hmode, OUTPUT_MODE_FULL, OUTPUT_MODE_LINE_ONLY]
  · intro iw info x y inP hmode hmask
    simp only [FillAndMaskFloat, initCtx_edgeMargin, initCtx_width, initCtx_height,
      initCtx_info] at hmask ⊢
    by_cases hedge : (x < info.searchRadius ∨ y < info.searchRadius ∨
        x ≥ info.srcWorld.width - info.searchRadius ∨
        y ≥ info.srcWorld.height - info.searchRadius)
    · rw [if_pos hedge] at hmask
      simp at hmask
    · rw [if_neg hedge] at hmask ⊢
      by_cases hl : IsTargetColorFloatFast inP (InitProcessingContext info).targetRF
          (InitProcessingContext info).targetGF (InitProcessingContext info).targetBF
          (InitProcessingContext info).toleranceSqF = true
      · simp [hl, hmode, OUTPUT_MODE_FULL, OUTPUT_MODE_LINE_ONLY, OUTPUT_MODE_BG_ONLY]
      · simp only [Bool.not_eq_true] at hl
        simp [hl] at hmask

/-- LineOnly variant of the 8-bit fixture parameters. -/
def info8L : ColorLinesInfo Pixel8 := { info8A with outputMode := OUTPUT_MODE_LINE_ONLY }

/-- BackgroundOnly variant of the 8-bit fixture parameters. -/
def info8BG : ColorLinesInfo Pixel8 := { info8A with outputMode := OUTPUT_MODE_BG_ONLY }

/-- LineOnly variant of the 16-bit fixture parameters. -/
def info16L : ColorLinesInfo Pixel16 := { info16A with outputMode := OUTPUT_MODE_LINE_ONLY }

/-- BackgroundOnly variant of the 16-bit fixture parameters. -/
def info16BG : ColorLinesInfo Pixel16 := { info16A with outputMode := OUTPUT_MODE_BG_ONLY }

/-- LineOnly variant of the float fixture parameters. -/
def infoFL : ColorLinesInfo PixelF := { infoFA with outputMode := OUTPUT_MODE_LINE_ONLY }

/-- BackgroundOnly variant of the float fixture parameters. -/
def infoFBG : ColorLinesInfo PixelF := { infoFA with outputMode := OUTPUT_MODE_BG_ONLY }

/-- C3 counterexample: in LineOnly mode, the edge-margin pixel (0,0) of a
3x3 frame with search radius 1 gets mask value 0 but keeps its input alpha
255, so the claim that every mask-0 pixel has output alpha 0 fails on the
code. -/
theorem C3_counterexample :
    (FillAndMask8 zeroTable (InitProcessingContext info8L) 0 0 ⟨1, 2, 3, 255⟩).2 = 0 ∧
    (FillAndMask8 zeroTable (InitProcessingContext info8L) 0 0 ⟨1, 2, 3, 255⟩).1.alpha = 255 := by
  constructor <;> rfl

/-- C3 witness: the amended invariants at the interior pixel (1,1) of the
3x3 fixtures, in all three bit depths: LineOnly with a non-matching pixel
(mask 0) gives alpha 0, BackgroundOnly with a matching pixel (mask 255)
gives alpha 0. -/
theorem C3_output_mode_alpha_witness :
    (FillAndMask8 zeroTable (InitProcessingContext info8L) 1 1 ⟨200, 200, 200, 255⟩).1.alpha = 0 ∧
    (FillAndMask8 zeroTable (InitProcessingContext info8BG) 1 1 ⟨0, 0, 0, 255⟩).1.alpha = 0 ∧
    (FillAndMask16 zeroTable (InitProcessingContext info16L) 1 1 ⟨30000, 30000, 30000, 32768⟩).1.alpha = 0 ∧
    (FillAndMask16 zeroTable (InitProcessingContext info16BG) 1 1 ⟨0, 0, 0, 32768⟩).1.alpha = 0 ∧
    (FillAndMaskFloat zeroTable (InitProcessingContext infoFL) 1 1 ⟨4/5, 4/5, 4/5, 1⟩).1.alpha = 0 ∧
    (FillAndMaskFloat zeroTable (InitProcessingContext infoFBG) 1 1 ⟨0, 0, 0, 1⟩).1.alpha = 0 :=
  ⟨C3_output_mode_alpha.1 zeroTable info8L 1 1 ⟨200, 200, 200, 255⟩ (by decide) rfl
      (by norm_num [FillAndMask8, InitProcessingContext, info8L, info8A, world8A,
        IsTargetColor8Fast, InitColorAdjustParams, FILL_MODE_AVERAGE, OUTPUT_MODE_LINE_ONLY,
        OUTPUT_MODE_FULL]),
   C3_output_mode_alpha.2.1 zeroTable info8BG 1 1 ⟨0, 0, 0, 255⟩ rfl
      (by norm_num [FillAndMask8, InitProcessingContext, info8BG, info8A, world8A,
        IsTargetColor8Fast, InitColorAdjustParams, FILL_MODE_AVERAGE, OUTPUT_MODE_BG_ONLY,
        OUTPUT_MODE_FULL, OUTPUT_MODE_LINE_ONLY]),
   C3_output_mode_alpha.2.2.1 zeroTable info16L 1 1 ⟨30000, 30000, 30000, 32768⟩ (by decide) rfl
      (by norm_num [FillAndMask16, InitProcessingContext, info16L, info16A, world16A,
        IsTargetColor16Fast, InitColorAdjustParams, FILL_MODE_AVERAGE, OUTPUT_MODE_LINE_ONLY,
        OUTPUT_MODE_FULL, PF_MAX_CHAN16]),
   C3_output_mode_alpha.2.2.2.1 zeroTable info16BG 1 1 ⟨0, 0, 0, 32768⟩ rfl
      (by norm_num [FillAndMask16, InitProcessingContext, info16BG, info16A, world16A,
        IsTargetColor16Fast, InitColorAdjustParams, FILL_MODE_AVERAGE, OUTPUT_MODE_BG_ONLY,
        OUTPUT_MODE_FULL, OUTPUT_MODE_LINE_ONLY, PF_MAX_CHAN16]),
   C3_output_mode_alpha.2.2.2.2.1 zeroTable infoFL 1 1 ⟨4/5, 4/5, 4/5, 1⟩ (by decide) rfl
      (by norm_num [FillAndMaskFloat, InitProcessingContext, infoFL, infoFA, worldFA,
        IsTargetColorFloatFast, InitColorAdjustParams, FILL_MODE_AVERAGE, OUTPUT_MODE_LINE_ONLY,
        OUTPUT_MODE_FULL]),
   C3_output_mode_alpha.2.2.2.2.2 zeroTable infoFBG 1 1 ⟨0, 0, 0, 1⟩ rfl
      (by norm_num [FillAndMaskFloat, InitProcessingContext, infoFBG, infoFA, worldFA,
        IsTargetColorFloatFast, InitColorAdjustParams, FILL_MODE_AVERAGE, OUTPUT_MODE_BG_ONLY,
        OUTPUT_MODE_FULL, OUTPUT_MODE_LINE_ONLY])⟩

/-- If every non-center window cell is disqualified, the 8-bit fill
accumulator stays at zero. -/
theorem fillWindowAccum8_eq_zero (iw : ℤ → ℚ) (info : ColorLinesInfo Pixel8) (x y : ℤ)
    (tR tG tB : ℤ) (tolSq : ℚ)
    (h : ∀ dy ∈ intRange (-info.searchRadius) info.searchRadius,
         ∀ dx ∈ intRange (-info.searchRadius) info.searchRadius,
      ¬(dx = 0 ∧ dy = 0) →
      (x + dx < 0 ∨ x + dx ≥ info.srcWorld.width ∨
       y + dy < 0 ∨ y + dy ≥ info.srcWorld.height ∨
       (info.ignoreTransparent = true ∧ (info.srcWorld.data (x + dx) (y + dy)).alpha < 255) ∨
       IsTargetColor8Fast (info.srcWorld.data (x + dx) (y + dy)) tR tG tB tolSq = true)) :
    fillWindowAccum8 iw info x y tR tG tB tolSq = Accum.zero := by
  simp only [fillWindowAccum8]
  apply foldl_fix
  intro s dy hdy
  dsimp only
  by_cases hny : (y + dy < 0 ∨ y + dy ≥ info.srcWorld.height)
  · rw [if_pos hny]
  · rw [if_neg hny]
    apply foldl_fix
    intro s2 dx hdx
    dsimp only
    by_cases hc : (dx = 0 ∧ dy = 0)
    · rw [if_pos hc]
    · rw [if_neg hc]
      have hd := h dy hdy dx hdx hc
      split_ifs <;> tauto

/-- If every non-center window cell is disqualified, the 16-bit fill
accumulator stays at zero. -/
theorem fillWindowAccum16_eq_zero (iw : ℤ → ℚ) (info : ColorLinesInfo Pixel16) (x y : ℤ)
    (tR tG tB : ℚ) (tolSq : ℚ)
    (h : ∀ dy ∈ intRange (-info.searchRadius) info.searchRadius,
         ∀ dx ∈ intRange (-info.searchRadius) info.searchRadius,
      ¬(dx = 0 ∧ dy = 0) →
      (x + dx < 0 ∨ x + dx ≥ info.srcWorld.width ∨
       y + dy < 0 ∨ y + dy ≥ info.srcWorld.height ∨
       (info.ignoreTransparent = true ∧
         (info.srcWorld.data (x + dx) (y + dy)).alpha < PF_MAX_CHAN16) ∨
       IsTargetColor16Fast (info.srcWorld.data (x + dx) (y + dy)) tR tG tB tolSq = true)) :
    fillWindowAccum16 iw info x y tR tG tB tolSq = Accum.zero := by
  simp only [fillWindowAccum16]
  apply foldl_fix
  intro s dy hdy
  dsimp only
  by_cases hny : (y + dy < 0 ∨ y + dy ≥ info.srcWorld.height)
  · rw [if_pos hny]
  · rw [if_neg hny]
    apply foldl_fix
    intro s2 dx hdx
    dsimp only
    by_cases hc : (dx = 0 ∧ dy = 0)
    · rw [if_pos hc]
    · rw [if_neg hc]
      have hd := h dy hdy dx hdx hc
      split_ifs <;> tauto

/-- If every non-center window cell is disqualified, the float fill
accumulator stays at zero. -/
theorem fillWindowAccumF_eq_zero (iw : ℤ → ℚ) (info : ColorLinesInfo PixelF) (x y : ℤ)
    (tR tG tB : ℚ) (tolSq : ℚ)
    (h : ∀ dy ∈ intRange (-info.searchRadius) info.searchRadius,
         ∀ dx ∈ intRange (-info.searchRadius) info.searchRadius,
      ¬(dx = 0 ∧ dy = 0) →
      (x + dx < 0 ∨ x + dx ≥ info.srcWorld.width ∨
       y + dy < 0 ∨ y + dy ≥ info.srcWorld.height ∨
       (info.ignoreTransparent = true ∧ (info.srcWorld.data (x + dx) (y + dy)).alpha < 1) ∨
       IsTargetColorFloatFast (info.srcWorld.data (x + dx) (y + dy)) tR tG tB tolSq = true)) :
    fillWindowAccumF iw info x y tR tG tB tolSq = Accum.zero := by
  simp only [fillWindowAccumF]
  apply foldl_fix
  intro s dy hdy
  dsimp only
  by_cases hny : (y + dy < 0 ∨ y + dy ≥ info.srcWorld.height)
  · rw [if_pos hny]
  · rw [if_neg hny]
    apply foldl_fix
    intro s2 dx hdx
    dsimp only
    by_cases hc : (dx = 0 ∧ dy = 0)
    · rw [if_pos hc]
    · rw [if_neg hc]
      have hd := h dy hdy dx hdx hc
      split_ifs <;> tauto

/-- C4 (amended): in Average and Weighted fill mode, when every non-center
cell of the search window is disqualified (out of bounds, below-maximum
alpha under ignore-transparent, or matching the target color), the total
weight is zero and the fill falls back to the input pixel; the written
output is that input pixel with the Color Adjuster applied, which equals
the input exactly when no adjustment factor is active. All three bit
depths. -/
theorem C4_zero_weight_fallback :
    (∀ (iw : ℤ → ℚ) (info : ColorLinesInfo Pixel8) (x y : ℤ) (inP : Pixel8)
        (tR tG tB : ℤ) (tolSq : ℚ) (adj : ColorAdjustParams),
      (info.fillMode = FILL_MODE_AVERAGE ∨ info.fillMode = FILL_MODE_WEIGHTED) →
      (∀ dy ∈ intRange (-info.searchRadius) info.searchRadius,
       ∀ dx ∈ intRange (-info.searchRadius) info.searchRadius,
        ¬(dx = 0 ∧ dy = 0) →
        (x + dx < 0 ∨ x + dx ≥ info.srcWorld.width ∨
         y + dy < 0 ∨ y + dy ≥ info.srcWorld.height ∨
         (info.ignoreTransparent = true ∧ (info.srcWorld.data (x + dx) (y + dy)).alpha < 255) ∨
         IsTargetColor8Fast (info.srcWorld.data (x + dx) (y + dy)) tR tG tB tolSq = true)) →
      FillLinePixel8 iw info x y inP tR tG tB tolSq adj = ApplyColorAdjustments8Fast inP adj ∧
      (adj.needsAdjustment = false →
        FillLinePixel8 iw info x y inP tR tG tB tolSq adj = inP)) ∧
    (∀ (iw : ℤ → ℚ) (info : ColorLinesInfo Pixel16) (x y : ℤ) (inP : Pixel16)
        (tR tG tB : ℚ) (tolSq : ℚ) (adj : ColorAdjustParams),
      (info.fillMode = FILL_MODE_AVERAGE ∨ info.fillMode = FILL_MODE_WEIGHTED) →
      (∀ dy ∈ intRange (-info.searchRadius) info.searchRadius,
       ∀ dx ∈ intRange (-info.searchRadius) info.searchRadius,
        ¬(dx = 0 ∧ dy = 0) →
        (x + dx < 0 ∨ x + dx ≥ info.srcWorld.width ∨
         y + dy < 0 ∨ y + dy ≥ info.srcWorld.height ∨
         (info.ignoreTransparent = true ∧
           (info.srcWorld.data (x + dx) (y + dy)).alpha < PF_MAX_CHAN16) ∨
         IsTargetColor16Fast (info.srcWorld.data (x + dx) (y + dy)) tR tG tB tolSq = true)) →
      FillLinePixel16 iw info x y inP tR tG tB tolSq adj = ApplyColorAdjustments16Fast inP adj ∧
      (adj.needsAdjustment = false →
        FillLinePixel16 iw info x y inP tR tG tB tolSq adj = inP)) ∧
    (∀ (iw : ℤ → ℚ) (info : ColorLinesInfo PixelF) (x y : ℤ) (inP : PixelF)
        (tR tG tB : ℚ) (tolSq : ℚ) (adj : ColorAdjustParams),
      (info.fillMode = FILL_MODE_AVERAGE ∨ info.fillMode = FILL_MODE_WEIGHTED) →
      (∀ dy ∈ intRange (-info.searchRadius) info.searchRadius,
       ∀ dx ∈ intRange (-info.searchRadius) info.searchRadius,
        ¬(dx = 0 ∧ dy = 0) →
        (x + dx < 0 ∨ x + dx ≥ info.srcWorld.width ∨
         y + dy < 0 ∨ y + dy ≥ info.srcWorld.height ∨
         (info.ignoreTransparent = true ∧ (info.srcWorld.data (x + dx) (y + dy)).alpha < 1) ∨
         IsTargetColorFloatFast (info.srcWorld.data (x + dx) (y + dy)) tR tG tB tolSq = true)) →
      FillLinePixelFloat iw info x y inP tR tG tB tolSq adj = ApplyColorAdjustmentsFloatFast inP adj ∧
      (adj.needsAdjustment = false →
        FillLinePixelFloat iw info x y inP tR tG tB tolSq adj = inP)) := by
  refine ⟨?_, ?_, ?_⟩
  · intro iw info x y inP tR tG tB tolSq adj hmode hdisq
    have hne : ¬(info.fillMode = FILL_MODE_NEAREST) := by
      rcases hmode with h | h <;>
        simp [h, FILL_MODE_NEAREST, FILL_MODE_AVERAGE, FILL_MODE_WEIGHTED]
    have hacc := fillWindowAccum8_eq_zero iw info x y tR tG tB tolSq hdisq
    have heq : FillLinePixel8 iw info x y inP tR tG tB tolSq adj =
        ApplyColorAdjustments8Fast inP adj := by
      simp only [FillLinePixel8, hacc, Accum.zero]
      rw [if_neg hne]
      norm_num
    refine ⟨heq, fun hno => ?_⟩
    rw [heq]
    simp [ApplyColorAdjustments8Fast, hno]
  · intro iw info x y inP tR tG tB tolSq adj hmode hdisq
    have hne : ¬(info.fillMode = FILL_MODE_NEAREST) := by
      rcases hmode with h | h <;>
        simp [h, FILL_MODE_NEAREST, FILL_MODE_AVERAGE, FILL_MODE_WEIGHTED]
    have hacc := fillWindowAccum16_eq_zero iw info x y tR tG tB tolSq hdisq
    have heq : FillLinePixel16 iw info x y inP tR tG tB tolSq adj =
        ApplyColorAdjustments16Fast inP adj := by
      simp only [FillLinePixel16, hacc, Accum.zero]
      rw [if_neg hne]
      norm_num
    refine ⟨heq, fun hno => ?_⟩
    rw [heq]
    simp [ApplyColorAdjustments16Fast, hno]
  · intro iw info x y inP tR tG tB tolSq adj hmode hdisq
    have hne : ¬(info.fillMode = FILL_MODE_NEAREST) := by
      rcases hmode with h | h <;>
        simp [h, FILL_MODE_NEAREST, FILL_MODE_AVERAGE, FILL_MODE_WEIGHTED]
    have hacc := fillWindowAccumF_eq_zero iw info x y tR tG tB tolSq hdisq
    have heq : FillLinePixelFloat iw info x y inP tR tG tB tolSq adj =
        ApplyColorAdjustmentsFloatFast inP adj := by
      simp only [FillLinePixelFloat, hacc, Accum.zero]
      rw [if_neg hne]
      norm_num
    refine ⟨heq, fun hno => ?_⟩
    rw [heq]
    simp [ApplyColorAdjustmentsFloatFast, hno]

/-- 8-bit fixture variant with brightness 100 (active Color Adjuster). -/
def info8CB : ColorLinesInfo Pixel8 := { info8A with brightness := 100 }

/-- 16-bit fixture variant with brightness 100. -/
def info16CB : ColorLinesInfo Pixel16 := { info16A with brightness := 100 }

/-- Float fixture variant with brightness 100. -/
def infoFCB : ColorLinesInfo PixelF := { infoFA with brightness := 100 }

/-- C4 counterexample: on a 3x3 all-black frame with black target (every
neighbor matches the target, so the total weight is zero) in Average mode
with brightness 100, the fill output at (1,1) is (255,255,255,255), not the
input pixel (0,0,0,255): the zero-weight fallback is followed by the Color
Adjuster, so output = input fails as stated. -/
theorem C4_counterexample :
    FillLinePixel8 zeroTable info8CB 1 1 ⟨0, 0, 0, 255⟩
      (InitProcessingContext info8CB).targetR8 (InitProcessingContext info8CB).targetG8
      (InitProcessingContext info8CB).targetB8 (InitProcessingContext info8CB).toleranceSq8
      (InitProcessingContext info8CB).colorAdj = ⟨255, 255, 255, 255⟩ ∧
    (⟨255, 255, 255, 255⟩ : Pixel8) ≠ (⟨0, 0, 0, 255⟩ : Pixel8) := by
  constructor
  · norm_num [FillLinePixel8, fillWindowAccum8, InitProcessingContext, InitColorAdjustParams,
      info8CB, info8A, world8A, IsTargetColor8Fast, ApplyColorAdjustments8Fast, Clamp01,
      ClampByte, Accum.zero, FILL_MODE_NEAREST, FILL_MODE_AVERAGE,
      show Int.toNat 255 = 255 from rfl,
      show intRange (-1) 1 = [-1, 0, 1] from rfl, List.foldl_cons, List.foldl_nil]
  · decide

/-- C4 witness: the amended fallback at (1,1) of the all-black 3x3 fixtures
(every neighbor matches the black target) in all three bit depths, and the
exact input pass-through when no adjustment is active. -/
theorem C4_zero_weight_fallback_witness :
    (FillLinePixel8 zeroTable info8CB 1 1 ⟨0, 0, 0, 255⟩ 0 0 0
        (InitProcessingContext info8CB).toleranceSq8 (InitProcessingContext info8CB).colorAdj =
      ApplyColorAdjustments8Fast ⟨0, 0, 0, 255⟩ (InitProcessingContext info8CB).colorAdj) ∧
    (FillLinePixel16 zeroTable info16CB 1 1 ⟨0, 0, 0, 32768⟩ 0 0 0
        (InitProcessingContext info16CB).toleranceSq16 (InitProcessingContext info16CB).colorAdj =
      ApplyColorAdjustments16Fast ⟨0, 0, 0, 32768⟩ (InitProcessingContext info16CB).colorAdj) ∧
    (FillLinePixelFloat zeroTable infoFCB 1 1 ⟨0, 0, 0, 1⟩ 0 0 0
        (InitProcessingContext infoFCB).toleranceSqF (InitProcessingContext infoFCB).colorAdj =
      ApplyColorAdjustmentsFloatFast ⟨0, 0, 0, 1⟩ (InitProcessingContext infoFCB).colorAdj) ∧
    (FillLinePixel8 zeroTable info8A 1 1 ⟨0, 0, 0, 255⟩ 0 0 0
        (InitProcessingContext info8A).toleranceSq8 (InitProcessingContext info8A).colorAdj =
      ⟨0, 0, 0, 255⟩) :=
  ⟨(C4_zero_weight_fallback.1 zeroTable info8CB 1 1 ⟨0, 0, 0, 255⟩ 0 0 0
      (InitProcessingContext info8CB).toleranceSq8 (InitProcessingContext info8CB).colorAdj
      (Or.inl rfl)
      (by
        intro dy hdy dx hdx hc
        right; right; right; right; right
        norm_num [IsTargetColor8Fast, info8CB, info8A, world8A, InitProcessingContext])).1,
   (C4_zero_weight_fallback.2.1 zeroTable info16CB 1 1 ⟨0, 0, 0, 32768⟩ 0 0 0
      (InitProcessingContext info16CB).toleranceSq16 (InitProcessingContext info16CB).colorAdj
      (Or.inl rfl)
      (by
        intro dy hdy dx hdx hc
        right; right; right; right; right
        norm_num [IsTargetColor16Fast, info16CB, info16A, world16A, InitProcessingContext,
          PF_MAX_CHAN16])).1,
   (C4_zero_weight_fallback.2.2 zeroTable infoFCB 1 1 ⟨0, 0, 0, 1⟩ 0 0 0
      (InitProcessingContext infoFCB).toleranceSqF (InitProcessingContext infoFCB).colorAdj
      (Or.inl rfl)
      (by
        intro dy hdy dx hdx hc
        right; right; right; right; right
        norm_num [IsTargetColorFloatFast, infoFCB, infoFA, worldFA, InitProcessingContext])).1,
   (C4_zero_weight_fallback.1 zeroTable info8A 1 1 ⟨0, 0, 0, 255⟩ 0 0 0
      (InitProcessingContext info8A).toleranceSq8 (InitProcessingContext info8A).colorAdj
      (Or.inl rfl)
      (by
        intro dy hdy dx hdx hc
        right; right; right; right; right
        norm_num [IsTargetColor8Fast, info8A, world8A, InitProcessingContext])).2
     (by norm_num [InitProcessingContext, InitColorAdjustParams, info8A])⟩

/-- The row-level early-exit heuristic of the 8-bit blur accumulation is
result-neutral: a row is skipped only when every cell of the row inside
the window is unmasked, and such a row contributes nothing. -/
theorem blurAccum8_eq_noskip (gw : ℤ → ℚ) (ctx : BlurContext Pixel8) (x y : ℤ) :
    blurAccum8 gw ctx x y = blurAccum8NoSkip gw ctx x y := by
  simp only [blurAccum8, blurAccum8NoSkip]
  apply foldl_congr_mem
  intro s dy hdy
  dsimp only
  by_cases hny : (y + dy < 0 ∨ y + dy ≥ ctx.info.maskHeight)
  · rw [if_pos hny, if_pos hny]
  · rw [if_neg hny, if_neg hny]
    by_cases hskip : (GetMaskAt ctx.info x (y + dy) = 0 ∧
        ¬((intRange (-ctx.blurRadius) ctx.blurRadius).any
          (fun dx => decide (GetMaskAt ctx.info (x + dx) (y + dy) ≠ 0))) = true)
    · rw [if_pos hskip]
      have hall : ∀ dx ∈ intRange (-ctx.blurRadius) ctx.blurRadius,
          GetMaskAt ctx.info (x + dx) (y + dy) = 0 := by
        intro dx hdx
        by_contra hne
        have h2 := hskip.2
        simp only [List.any_eq_true, decide_eq_true_eq, not_exists, not_and] at h2
        exact absurd hne (by simpa using h2 dx hdx)
      symm
      apply foldl_fix
      intro s2 dx hdx
      dsimp only
      by_cases hb : (x + dx < 0 ∨ x + dx ≥ ctx.info.maskWidth)
      · rw [if_pos hb]
      · rw [if_neg hb, if_pos (hall dx hdx)]
    · rw [if_neg hskip]

/-- C7: the 8-bit blur with the row-level early-exit heuristic computes
exactly the same output as the heuristic-free variant (the loop structure
of the 16-bit and float paths on the same data), for every pixel; and on
numerically identical mask and snapshot contents the 8-bit accumulation
coincides with the accumulations of the 16-bit and float paths. -/
theorem C7_blur_row_skip_equiv :
    (∀ (gw : ℤ → ℚ) (ctx : BlurContext Pixel8) (x y : ℤ) (inP : Pixel8),
      BlurPass8 gw ctx x y inP = BlurPass8NoSkip gw ctx x y inP) ∧
    (∀ (gw : ℤ → ℚ) (ctx8 : BlurContext Pixel8) (ctx16 : BlurContext Pixel16) (x y : ℤ),
      ctx8.info.maskWidth = ctx16.info.maskWidth →
      ctx8.info.maskHeight = ctx16.info.maskHeight →
      (∀ u v : ℤ, ctx8.info.lineMask u v = ctx16.info.lineMask u v) →
      (∀ u v : ℤ, ((ctx8.tempWorld.data u v).red : ℚ) = ((ctx16.tempWorld.data u v).red : ℚ) ∧
        ((ctx8.tempWorld.data u v).green : ℚ) = ((ctx16.tempWorld.data u v).green : ℚ) ∧
        ((ctx8.tempWorld.data u v).blue : ℚ) = ((ctx16.tempWorld.data u v).blue : ℚ) ∧
        ((ctx8.tempWorld.data u v).alpha : ℚ) = ((ctx16.tempWorld.data u v).alpha : ℚ)) →
      ctx8.blurRadius = ctx16.blurRadius →
      ctx8.blurSize = ctx16.blurSize →
      blurAccum8NoSkip gw ctx8 x y = blurAccum16 gw ctx16 x y) ∧
    (∀ (gw : ℤ → ℚ) (ctx8 : BlurContext Pixel8) (ctxF : BlurContext PixelF) (x y : ℤ),
      ctx8.info.maskWidth = ctxF.info.maskWidth →
      ctx8.info.maskHeight = ctxF.info.maskHeight →
      (∀ u v : ℤ, ctx8.info.lineMask u v = ctxF.info.lineMask u v) →
      (∀ u v : ℤ, ((ctx8.tempWorld.data u v).red : ℚ) = (ctxF.tempWorld.data u v).red ∧
        ((ctx8.tempWorld.data u v).green : ℚ) = (ctxF.tempWorld.data u v).green ∧
        ((ctx8.tempWorld.data u v).blue : ℚ) = (ctxF.tempWorld.data u v).blue ∧
        ((ctx8.tempWorld.data u v).alpha : ℚ) = (ctxF.tempWorld.data u v).alpha) →
      ctx8.blurRadius = ctxF.blurRadius →
      ctx8.blurSize = ctxF.blurSize →
      blurAccum8NoSkip gw ctx8 x y = blurAccumF gw ctxF x y) := by
  refine ⟨?_, ?_, ?_⟩
  · intro gw ctx x y inP
    simp only [BlurPass8, BlurPass8NoSkip, blurAccum8_eq_noskip]
  · intro gw ctx8 ctx16 x y hW hH hM hD hR hS
    have hmask : ∀ u v : ℤ, GetMaskAt ctx8.info u v = GetMaskAt ctx16.info u v := by
      intro u v
      simp [GetMaskAt, hW, hH, hM]
    simp only [blurAccum8NoSkip, blurAccum16, ← hR, ← hS, ← hH, ← hW]
    apply foldl_congr_mem
    intro s dy hdy
    dsimp only
    by_cases hny : (y + dy < 0 ∨ y + dy ≥ ctx8.info.maskHeight)
    · rw [if_pos hny, if_pos hny]
    · rw [if_neg hny, if_neg hny]
      apply foldl_congr_mem
      intro s2 dx hdx
      dsimp only
      by_cases hb : (x + dx < 0 ∨ x + dx ≥ ctx8.info.maskWidth)
      · rw [if_pos hb, if_pos hb]
      · rw [if_neg hb, if_neg hb, ← hmask]
        by_cases hm0 : GetMaskAt ctx8.info (x + dx) (y + dy) = 0
        · rw [if_pos hm0, if_pos hm0]
        · rw [if_neg hm0, if_neg hm0]
          obtain ⟨h1, h2, h3, h4⟩ := hD (x + dx) (y + dy)
          rw [h1, h2, h3, h4]
  · intro gw ctx8 ctxF x y hW hH hM hD hR hS
    have hmask : ∀ u v : ℤ, GetMaskAt ctx8.info u v = GetMaskAt ctxF.info u v := by
      intro u v
      simp [GetMaskAt, hW, hH, hM]
    simp only [blurAccum8NoSkip, blurAccumF, ← hR, ← hS, ← hH, ← hW]
    apply foldl_congr_mem
    intro s dy hdy
    dsimp only
    by_cases hny : (y + dy < 0 ∨ y + dy ≥ ctx8.info.maskHeight)
    · rw [if_pos hny, if_pos hny]
    · rw [if_neg hny, if_neg hny]
      apply foldl_congr_mem
      intro s2 dx hdx
      dsimp only
      by_cases hb : (x + dx < 0 ∨ x + dx ≥ ctx8.info.maskWidth)
      · rw [if_pos hb, if_pos hb]
      · rw [if_neg hb, if_neg hb, ← hmask]
        by_cases hm0 : GetMaskAt ctx8.info (x + dx) (y + dy) = 0
        · rw [if_pos hm0, if_pos hm0]
        · rw [if_neg hm0, if_neg hm0]
          obtain ⟨h1, h2, h3, h4⟩ := hD (x + dx) (y + dy)
          rw [h1, h2, h3, h4]

/-- An all-255 mask fixture. -/
def mask255 : ℤ → ℤ → ℕ := fun _ _ => 255

/-- 8-bit fixture with an all-255 line mask. -/
def info8M : ColorLinesInfo Pixel8 := { info8A with lineMask := mask255 }

/-- 16-bit fixture with an all-255 line mask. -/
def info16M : ColorLinesInfo Pixel16 := { info16A with lineMask := mask255 }

/-- Float fixture with an all-255 line mask. -/
def infoFM : ColorLinesInfo PixelF := { infoFA with lineMask := mask255 }

/-- 16-bit snapshot fixture numerically identical to world8A. -/
def world16W : World Pixel16 := ⟨3, 3, fun _ _ => ⟨0, 0, 0, 255⟩⟩

/-- Float snapshot fixture numerically identical to world8A. -/
def worldFW : World PixelF := ⟨3, 3, fun _ _ => ⟨0, 0, 0, 255⟩⟩

/-- C7 witness: on the 3x3 fixtures with identical all-255 masks and
numerically identical snapshots, the 8-bit accumulation at (1,1) coincides
with the 16-bit and float accumulations. -/
theorem C7_blur_row_skip_equiv_witness :
    blurAccum8NoSkip oneTable ⟨info8M, world8A, 1, 3⟩ 1 1 =
      blurAccum16 oneTable ⟨info16M, world16W, 1, 3⟩ 1 1 ∧
    blurAccum8NoSkip oneTable ⟨info8M, world8A, 1, 3⟩ 1 1 =
      blurAccumF oneTable ⟨infoFM, worldFW, 1, 3⟩ 1 1 :=
  ⟨C7_blur_row_skip_equiv.2.1 oneTable ⟨info8M, world8A, 1, 3⟩ ⟨info16M, world16W, 1, 3⟩ 1 1
      rfl rfl (fun _ _ => rfl)
      (fun _ _ => by
        refine ⟨?_, ?_, ?_, ?_⟩ <;> norm_num [world8A, world16W])
      rfl rfl,
   C7_blur_row_skip_equiv.2.2 oneTable ⟨info8M, world8A, 1, 3⟩ ⟨infoFM, worldFW, 1, 3⟩ 1 1
      rfl rfl (fun _ _ => rfl)
      (fun _ _ => by
        refine ⟨?_, ?_, ?_, ?_⟩ <;> norm_num [world8A, worldFW])
      rfl rfl⟩

/-- A left fold whose steps never decrease the running total. -/
theorem foldl_total_mono (f : Accum → ℤ → Accum) (l : List ℤ)
    (h : ∀ s, ∀ x ∈ l, s.total ≤ (f s x).total) (a : Accum) :
    a.total ≤ (l.foldl f a).total := by
  induction l generalizing a with
  | nil => simp
  | cons y ys ih =>
    rw [List.foldl_cons]
    exact le_trans (h a y (by simp)) (ih (fun s x hx => h s x (by simp [hx])) (f a y))

/-- A left fold with nondecreasing totals and one element that always adds
at least 1 raises the total by at least 1. -/
theorem foldl_total_add_one (f : Accum → ℤ → Accum) (l : List ℤ)
    (hmono : ∀ s, ∀ x ∈ l, s.total ≤ (f s x).total) (x0 : ℤ) (hx0 : x0 ∈ l)
    (hstep : ∀ s, s.total + 1 ≤ (f s x0).total) (a : Accum) :
    a.total + 1 ≤ (l.foldl f a).total := by
  induction l generalizing a with
  | nil => simp at hx0
  | cons y ys ih =>
    rw [List.foldl_cons]
    rcases List.mem_cons.mp hx0 with h | h
    · have h1 := hstep a
      rw [h] at h1
      have h2 := foldl_total_mono f ys (fun s x hx => hmono s x (by simp [hx])) (f a y)
      linarith
    · have h1 := hmono a y (by simp)
      have h2 := ih (fun s x hx => hmono s x (by simp [hx])) h (f a y)
      linarith

/-- With a nonnegative weight table whose center entry is 1, a masked
center pixel makes the 8-bit blur accumulation collect at least weight 1
(the center cell itself is in bounds, masked, and weighted by the center
table entry). -/
theorem blurAccum8_total_ge_one (gw : ℤ → ℚ) (ctx : BlurContext Pixel8) (x y : ℤ)
    (hg : ∀ i, 0 ≤ gw i)
    (hw1 : gw (ctx.blurRadius * ctx.blurSize + ctx.blurRadius) = 1)
    (hm : GetMaskAt ctx.info x y ≠ 0)
    (hr : 1 ≤ ctx.blurRadius) :
    1 ≤ (blurAccum8 gw ctx x y).total := by
  have hcond : ¬(x < 0 ∨ x ≥ ctx.info.maskWidth ∨ y < 0 ∨ y ≥ ctx.info.maskHeight) := by
    intro hb
    exact hm (by simp [GetMaskAt, if_pos hb])
  push_neg at hcond
  obtain ⟨hx0, hxW, hy0, hyH⟩ := hcond
  have hmem : (0 : ℤ) ∈ intRange (-ctx.blurRadius) ctx.blurRadius :=
    mem_intRange.mpr ⟨by linarith, by linarith⟩
  simp only [blurAccum8]
  refine le_trans (by norm_num [Accum.zero]) (foldl_total_add_one _ _ ?_ 0 hmem ?_ Accum.zero)
  · intro s dy hdy
    dsimp only
    split_ifs
    · exact le_refl _
    · exact le_refl _
    · apply foldl_total_mono
      intro s2 dx hdx
      dsimp only
      split_ifs
      · exact le_refl _
      · exact le_refl _
      · have := hg ((dy + ctx.blurRadius) * ctx.blurSize + dx + ctx.blurRadius)
        show s2.total ≤ s2.total + _
        linarith
  · intro s
    dsimp only
    have hny : ¬(y + 0 < 0 ∨ y + 0 ≥ ctx.info.maskHeight) := by omega
    rw [if_neg hny]
    have hnskip : ¬(GetMaskAt ctx.info x (y + 0) = 0 ∧
        ¬((intRange (-ctx.blurRadius) ctx.blurRadius).any
          (fun dx => decide (GetMaskAt ctx.info (x + dx) (y + 0) ≠ 0))) = true) := by
      intro hcontra
      exact hm (by simpa using hcontra.1)
    rw [if_neg hnskip]
    refine le_trans (le_refl _) (foldl_total_add_one _ _ ?_ 0 hmem ?_ s)
    · intro s2 dx hdx
      dsimp only
      split_ifs
      · exact le_refl _
      · exact le_refl _
      · have := hg ((0 + ctx.blurRadius) * ctx.blurSize + dx + ctx.blurRadius)
        show s2.total ≤ s2.total + _
        linarith
    · intro s2
      dsimp only
      have hbx : ¬(x + 0 < 0 ∨ x + 0 ≥ ctx.info.maskWidth) := by omega
      rw [if_neg hbx]
      have hm2 : ¬(GetMaskAt ctx.info (x + 0) (y + 0) = 0) := by
        simpa using hm
      rw [if_neg hm2]
      show s2.total + 1 ≤ s2.total + gw ((0 + ctx.blurRadius) * ctx.blurSize + 0 + ctx.blurRadius)
      have hidx : (0 + ctx.blurRadius) * ctx.blurSize + 0 + ctx.blurRadius =
          ctx.blurRadius * ctx.blurSize + ctx.blurRadius := by ring
      rw [hidx, hw1]

/-- 16-bit variant of the center-weight lower bound. -/
theorem blurAccum16_total_ge_one (gw : ℤ → ℚ) (ctx : BlurContext Pixel16) (x y : ℤ)
    (hg : ∀ i, 0 ≤ gw i)
    (hw1 : gw (ctx.blurRadius * ctx.blurSize + ctx.blurRadius) = 1)
    (hm : GetMaskAt ctx.info x y ≠ 0)
    (hr : 1 ≤ ctx.blurRadius) :
    1 ≤ (blurAccum16 gw ctx x y).total := by
  have hcond : ¬(x < 0 ∨ x ≥ ctx.info.maskWidth ∨ y < 0 ∨ y ≥ ctx.info.maskHeight) := by
    intro hb
    exact hm (by simp [GetMaskAt, if_pos hb])
  push_neg at hcond
  obtain ⟨hx0, hxW, hy0, hyH⟩ := hcond
  have hmem : (0 : ℤ) ∈ intRange (-ctx.blurRadius) ctx.blurRadius :=
    mem_intRange.mpr ⟨by linarith, by linarith⟩
  simp only [blurAccum16]
  refine le_trans (by norm_num [Accum.zero]) (foldl_total_add_one _ _ ?_ 0 hmem ?_ Accum.zero)
  · intro s dy hdy
    dsimp only
    split_ifs
    · exact le_refl _
    · apply foldl_total_mono
      intro s2 dx hdx
      dsimp only
      split_ifs
      · exact le_refl _
      · exact le_refl _
      · have := hg ((dy + ctx.blurRadius) * ctx.blurSize + dx + ctx.blurRadius)
        show s2.total ≤ s2.total + _
        linarith
  · intro s
    dsimp only
    have hny : ¬(y + 0 < 0 ∨ y + 0 ≥ ctx.info.maskHeight) := by omega
    rw [if_neg hny]
    refine le_trans (le_refl _) (foldl_total_add_one _ _ ?_ 0 hmem ?_ s)
    · intro s2 dx hdx
      dsimp only
      split_ifs
      · exact le_refl _
      · exact le_refl _
      · have := hg ((0 + ctx.blurRadius) * ctx.blurSize + dx + ctx.blurRadius)
        show s2.total ≤ s2.total + _
        linarith
    · intro s2
      dsimp only
      have hbx : ¬(x + 0 < 0 ∨ x + 0 ≥ ctx.info.maskWidth) := by omega
      rw [if_neg hbx]
      have hm2 : ¬(GetMaskAt ctx.info (x + 0) (y + 0) = 0) := by
        simpa using hm
      rw [if_neg hm2]
      show s2.total + 1 ≤ s2.total + gw ((0 + ctx.blurRadius) * ctx.blurSize + 0 + ctx.blurRadius)
      have hidx : (0 + ctx.blurRadius) * ctx.blurSize + 0 + ctx.blurRadius =
          ctx.blurRadius * ctx.blurSize + ctx.blurRadius := by ring
      rw [hidx, hw1]

/-- Float variant of the center-weight lower bound. -/
theorem blurAccumF_total_ge_one (gw : ℤ → ℚ) (ctx : BlurContext PixelF) (x y : ℤ)
    (hg : ∀ i, 0 ≤ gw i)
    (hw1 : gw (ctx.blurRadius * ctx.blurSize + ctx.blurRadius) = 1)
    (hm : GetMaskAt ctx.info x y ≠ 0)
    (hr : 1 ≤ ctx.blurRadius) :
    1 ≤ (blurAccumF gw ctx x y).total := by
  have hcond : ¬(x < 0 ∨ x ≥ ctx.info.maskWidth ∨ y < 0 ∨ y ≥ ctx.info.maskHeight) := by
    intro hb
    exact hm (by simp [GetMaskAt, if_pos hb])
  push_neg at hcond
  obtain ⟨hx0, hxW, hy0, hyH⟩ := hcond
  have hmem : (0 : ℤ) ∈ intRange (-ctx.blurRadius) ctx.blurRadius :=
    mem_intRange.mpr ⟨by linarith, by linarith⟩
  simp only [blurAccumF]
  refine le_trans (by norm_num [Accum.zero]) (foldl_total_add_one _ _ ?_ 0 hmem ?_ Accum.zero)
  · intro s dy hdy
    dsimp only
    split_ifs
    · exact le_refl _
    · apply foldl_total_mono
      intro s2 dx hdx
      dsimp only
      split_ifs
      · exact le_refl _
      · exact le_refl _
      · have := hg ((dy + ctx.blurRadius) * ctx.blurSize + dx + ctx.blurRadius)
        show s2.total ≤ s2.total + _
        linarith
  · intro s
    dsimp only
    have hny : ¬(y + 0 < 0 ∨ y + 0 ≥ ctx.info.maskHeight) := by omega
    rw [if_neg hny]
    refine le_trans (le_refl _) (foldl_total_add_one _ _ ?_ 0 hmem ?_ s)
    · intro s2 dx hdx
      dsimp only
      split_ifs
      · exact le_refl _
      · exact le_refl _
      · have := hg ((0 + ctx.blurRadius) * ctx.blurSize + dx + ctx.blurRadius)
        show s2.total ≤ s2.total + _
        linarith
    · intro s2
      dsimp only
      have hbx : ¬(x + 0 < 0 ∨ x + 0 ≥ ctx.info.maskWidth) := by omega
      rw [if_neg hbx]
      have hm2 : ¬(GetMaskAt ctx.info (x + 0) (y + 0) = 0) := by
        simpa using hm
      rw [if_neg hm2]
      show s2.total + 1 ≤ s2.total + gw ((0 + ctx.blurRadius) * ctx.blurSize + 0 + ctx.blurRadius)
      have hidx : (0 + ctx.blurRadius) * ctx.blurSize + 0 + ctx.blurRadius =
          ctx.blurRadius * ctx.blurSize + ctx.blurRadius := by ring
      rw [hidx, hw1]

/-- C10: the gaussian weight of PrecomputeGaussianWeights at offset (0,0)
is exp 0 = 1 and every table entry is positive; consequently, for any
nonnegative table state whose center entry is 1, a blurred pixel with
nonzero mask accumulates total weight at least 1 (the center cell is in
bounds and masked), so the zero-total-weight fallback branch is never
taken and the output is the weighted quotient, in all three bit depths. -/
theorem C10_blur_center_weight :
    (∀ r : ℤ, gaussianWeightR r 0 0 = 1) ∧
    (∀ r dx dy : ℤ, 0 < gaussianWeightR r dx dy) ∧
    (∀ (gw : ℤ → ℚ) (ctx : BlurContext Pixel8) (x y : ℤ) (inP : Pixel8),
      (∀ i, 0 ≤ gw i) →
      gw (ctx.blurRadius * ctx.blurSize + ctx.blurRadius) = 1 →
      GetMaskAt ctx.info x y ≠ 0 →
      1 ≤ ctx.blurRadius →
      1 ≤ (blurAccum8 gw ctx x y).total ∧
      BlurPass8 gw ctx x y inP =
        ⟨ClampByte ((blurAccum8 gw ctx x y).sumR * (1 / (blurAccum8 gw ctx x y).total)),
         ClampByte ((blurAccum8 gw ctx x y).sumG * (1 / (blurAccum8 gw ctx x y).total)),
         ClampByte ((blurAccum8 gw ctx x y).sumB * (1 / (blurAccum8 gw ctx x y).total)),
         ClampByte ((blurAccum8 gw ctx x y).sumA * (1 / (blurAccum8 gw ctx x y).total))⟩) ∧
    (∀ (gw : ℤ → ℚ) (ctx : BlurContext Pixel16) (x y : ℤ) (inP : Pixel16),
      (∀ i, 0 ≤ gw i) →
      gw (ctx.blurRadius * ctx.blurSize + ctx.blurRadius) = 1 →
      GetMaskAt ctx.info x y ≠ 0 →
      1 ≤ ctx.blurRadius →
      1 ≤ (blurAccum16 gw ctx x y).total ∧
      BlurPass16 gw ctx x y inP =
        ⟨Clamp16 ((blurAccum16 gw ctx x y).sumR * (1 / (blurAccum16 gw ctx x y).total)),
         Clamp16 ((blurAccum16 gw ctx x y).sumG * (1 / (blurAccum16 gw ctx x y).total)),
         Clamp16 ((blurAccum16 gw ctx x y).sumB * (1 / (blurAccum16 gw ctx x y).total)),
         Clamp16 ((blurAccum16 gw ctx x y).sumA * (1 / (blurAccum16 gw ctx x y).total))⟩) ∧
    (∀ (gw : ℤ → ℚ) (ctx : BlurContext PixelF) (x y : ℤ) (inP : PixelF),
      (∀ i, 0 ≤ gw i) →
      gw (ctx.blurRadius * ctx.blurSize + ctx.blurRadius) = 1 →
      GetMaskAt ctx.info x y ≠ 0 →
      1 ≤ ctx.blurRadius →
      1 ≤ (blurAccumF gw ctx x y).total ∧
      BlurPassFloat gw ctx x y inP =
        ⟨(blurAccumF gw ctx x y).sumR * (1 / (blurAccumF gw ctx x y).total),
         (blurAccumF gw ctx x y).sumG * (1 / (blurAccumF gw ctx x y).total),
         (blurAccumF gw ctx x y).sumB * (1 / (blurAccumF gw ctx x y).total),
         (blurAccumF gw ctx x y).sumA * (1 / (blurAccumF gw ctx x y).total)⟩) := by
  refine ⟨?_, ?_, ?_, ?_, ?_⟩
  · intro r
    simp [gaussianWeightR]
  · intro r dx dy
    exact Real.exp_pos _
  · intro gw ctx x y inP hg hw1 hm hr
    have key := blurAccum8_total_ge_one gw ctx x y hg hw1 hm hr
    refine ⟨key, ?_⟩
    simp only [BlurPass8, if_neg hm]
    rw [if_pos (by linarith : (blurAccum8 gw ctx x y).total > 0)]
  · intro gw ctx x y inP hg hw1 hm hr
    have key := blurAccum16_total_ge_one gw ctx x y hg hw1 hm hr
    refine ⟨key, ?_⟩
    simp only [BlurPass16, if_neg hm]
    rw [if_pos (by linarith : (blurAccum16 gw ctx x y).total > 0)]
  · intro gw ctx x y inP hg hw1 hm hr
    have key := blurAccumF_total_ge_one gw ctx x y hg hw1 hm hr
    refine ⟨key, ?_⟩
    simp only [BlurPassFloat, if_neg hm]
    rw [if_pos (by linarith : (blurAccumF gw ctx x y).total > 0)]

/-- C10 witness: with the all-one table, radius 1 and the all-255 mask,
the masked pixel (1,1) of the 3x3 fixtures accumulates total weight at
least 1 in all three bit depths, and exp(0) is 1. -/
theorem C10_blur_center_weight_witness :
    gaussianWeightR 2 0 0 = 1 ∧
    1 ≤ (blurAccum8 oneTable ⟨info8M, world8A, 1, 3⟩ 1 1).total ∧
    1 ≤ (blurAccum16 oneTable ⟨info16M, world16W, 1, 3⟩ 1 1).total ∧
    1 ≤ (blurAccumF oneTable ⟨infoFM, worldFW, 1, 3⟩ 1 1).total :=
  ⟨C10_blur_center_weight.1 2,
   (C10_blur_center_weight.2.2.1 oneTable ⟨info8M, world8A, 1, 3⟩ 1 1 ⟨0, 0, 0, 255⟩
      (fun i => by norm_num [oneTable]) rfl (by decide) (by decide)).1,
   (C10_blur_center_weight.2.2.2.1 oneTable ⟨info16M, world16W, 1, 3⟩ 1 1 ⟨0, 0, 0, 255⟩
      (fun i => by norm_num [oneTable]) rfl (by decide) (by decide)).1,
   (C10_blur_center_weight.2.2.2.2 oneTable ⟨infoFM, worldFW, 1, 3⟩ 1 1 ⟨0, 0, 0, 255⟩
      (fun i => by norm_num [oneTable]) rfl (by decide) (by decide)).1⟩

/-- C6: the effective blur radius is the truncating A_long cast of
sampleBlur / 10, which on the nonnegative slider range equals
floor(sampleBlur / 10); sampleBlur 25 yields radius 2 and sampleBlur 9
yields radius 0; the blur pass runs exactly when this radius is at least
1, and otherwise the rendered frame is the pass-1 output itself, in all
three bit depths. -/
theorem C6_blur_radius_gate :
    truncQ ((25 : ℚ) / 10) = 2 ∧
    truncQ ((9 : ℚ) / 10) = 0 ∧
    (∀ s : ℚ, 0 ≤ s → truncQ (s / 10) = ⌊s / 10⌋) ∧
    (∀ (iw gw : ℤ → ℚ) (info : ColorLinesInfo Pixel8),
      truncQ (info.sampleBlur / 10) < 1 → SmartRender8 iw gw info = Pass1Out8 iw info) ∧
    (∀ (iw gw : ℤ → ℚ) (info : ColorLinesInfo Pixel16),
      truncQ (info.sampleBlur / 10) < 1 → SmartRender16 iw gw info = Pass1Out16 iw info) ∧
    (∀ (iw gw : ℤ → ℚ) (info : ColorLinesInfo PixelF),
      truncQ (info.sampleBlur / 10) < 1 → SmartRenderF iw gw info = Pass1OutF iw info) ∧
    (∀ (iw gw : ℤ → ℚ) (info : ColorLinesInfo Pixel8),
      1 ≤ truncQ (info.sampleBlur / 10) →
      SmartRender8 iw gw info = fun x y =>
        BlurPass8 gw
          ⟨{ info with
              lineMask := Pass1Mask8 iw info
              maskWidth := info.srcWorld.width
              maskHeight := info.srcWorld.height },
            ⟨info.srcWorld.width, info.srcWorld.height, Pass1Out8 iw info⟩,
            truncQ (info.sampleBlur / 10), truncQ (info.sampleBlur / 10) * 2 + 1⟩
          x y (Pass1Out8 iw info x y)) := by
  refine ⟨by norm_num [truncQ], by norm_num [truncQ], ?_, ?_, ?_, ?_, ?_⟩
  · intro s hs
    rw [truncQ, if_neg (not_lt.mpr (by positivity))]
  · intro iw gw info h
    simp only [SmartRender8]
    rw [if_neg (by omega)]
  · intro iw gw info h
    simp only [SmartRender16]
    rw [if_neg (by omega)]
  · intro iw gw info h
    simp only [SmartRenderF]
    rw [if_neg (by omega)]
  · intro iw gw info h
    simp only [SmartRender8]
    rw [if_pos h]

/-- 8-bit fixture with sampleBlur 9 (blur radius 0, blur pass skipped). -/
def info8S9 : ColorLinesInfo Pixel8 := { info8A with sampleBlur := 9 }

/-- C6 witness: sampleBlur 9 gives radius floor(9/10) = 0 and the rendered
frame is exactly the pass-1 output. -/
theorem C6_blur_radius_gate_witness :
    truncQ ((9 : ℚ) / 10) = ⌊(9 : ℚ) / 10⌋ ∧
    SmartRender8 zeroTable oneTable info8S9 = Pass1Out8 zeroTable info8S9 :=
  ⟨C6_blur_radius_gate.2.2.1 9 (by norm_num),
   C6_blur_radius_gate.2.2.2.1 zeroTable oneTable info8S9 (by norm_num [truncQ, info8S9, info8A])⟩

/-- ClampByte never exceeds 255. -/
theorem ClampByte_le (v : ℚ) : ClampByte v ≤ 255 := by
  unfold ClampByte
  split_ifs with h1 h2
  · omega
  · exact le_refl _
  · rw [Int.toNat_le]
    calc ⌊v⌋ ≤ ⌊(255 : ℚ)⌋ := Int.floor_le_floor (not_lt.mp h2)
    _ = 255 := by norm_num

/-- Clamp16 never exceeds PF_MAX_CHAN16. -/
theorem Clamp16_le (v : ℚ) : Clamp16 v ≤ PF_MAX_CHAN16 := by
  unfold Clamp16
  split_ifs with h1 h2
  · omega
  · exact le_refl _
  · rw [Int.toNat_le]
    calc ⌊v⌋ ≤ ⌊(PF_MAX_CHAN16 : ℚ)⌋ := Int.floor_le_floor (not_lt.mp h2)
    _ = (PF_MAX_CHAN16 : ℤ) := by norm_num [PF_MAX_CHAN16]

/-- C8 (amended): whenever the Color Adjuster is active, the 8-bit and
16-bit paths clamp every written RGB channel to the native range (at most
255 and 32768; the channels are naturals, hence nonnegative); the float
path writes its results back without clamping. -/
theorem C8_adjust_clamp :
    (∀ (p : Pixel8) (adj : ColorAdjustParams), adj.needsAdjustment = true →
      (ApplyColorAdjustments8Fast p adj).red ≤ 255 ∧
      (ApplyColorAdjustments8Fast p adj).green ≤ 255 ∧
      (ApplyColorAdjustments8Fast p adj).blue ≤ 255) ∧
    (∀ (p : Pixel16) (adj : ColorAdjustParams), adj.needsAdjustment = true →
      (ApplyColorAdjustments16Fast p adj).red ≤ PF_MAX_CHAN16 ∧
      (ApplyColorAdjustments16Fast p adj).green ≤ PF_MAX_CHAN16 ∧
      (ApplyColorAdjustments16Fast p adj).blue ≤ PF_MAX_CHAN16) := by
  constructor
  · intro p adj hadj
    simp only [ApplyColorAdjustments8Fast, hadj, Bool.not_true, Bool.false_eq_true, if_false]
    exact ⟨ClampByte_le _, ClampByte_le _, ClampByte_le _⟩
  · intro p adj hadj
    simp only [ApplyColorAdjustments16Fast, hadj, Bool.not_true, Bool.false_eq_true, if_false]
    exact ⟨Clamp16_le _, Clamp16_le _, Clamp16_le _⟩

/-- C8 counterexample: the float path writes unclamped values: a white
float pixel (1,1,1,1) with brightness 100 (factor 1.0) comes back with red
channel 2, outside the native range [0,1], so the claim that every written
channel is clamped to the native range fails on the code. -/
theorem C8_counterexample :
    (ApplyColorAdjustmentsFloatFast ⟨1, 1, 1, 1⟩ (InitColorAdjustParams infoFCB)).red = 2 ∧
    ¬((ApplyColorAdjustmentsFloatFast ⟨1, 1, 1, 1⟩ (InitColorAdjustParams infoFCB)).red ≤ 1) := by
  constructor <;>
    norm_num [ApplyColorAdjustmentsFloatFast, InitColorAdjustParams, infoFCB, infoFA]

/-- C8 witness: an over-range 8-bit input with active brightness comes back
with all RGB channels clamped within the native ranges. -/
theorem C8_adjust_clamp_witness :
    ((ApplyColorAdjustments8Fast ⟨300, 0, 0, 9⟩ (InitColorAdjustParams info8CB)).red ≤ 255 ∧
     (ApplyColorAdjustments8Fast ⟨300, 0, 0, 9⟩ (InitColorAdjustParams info8CB)).green ≤ 255 ∧
     (ApplyColorAdjustments8Fast ⟨300, 0, 0, 9⟩ (InitColorAdjustParams info8CB)).blue ≤ 255) ∧
    ((ApplyColorAdjustments16Fast ⟨40000, 0, 0, 9⟩ (InitColorAdjustParams info16CB)).red ≤ PF_MAX_CHAN16 ∧
     (ApplyColorAdjustments16Fast ⟨40000, 0, 0, 9⟩ (InitColorAdjustParams info16CB)).green ≤ PF_MAX_CHAN16 ∧
     (ApplyColorAdjustments16Fast ⟨40000, 0, 0, 9⟩ (InitColorAdjustParams info16CB)).blue ≤ PF_MAX_CHAN16) :=
  ⟨C8_adjust_clamp.1 ⟨300, 0, 0, 9⟩ (InitColorAdjustParams info8CB)
      (by norm_num [InitColorAdjustParams, info8CB, info8A]),
   C8_adjust_clamp.2 ⟨40000, 0, 0, 9⟩ (InitColorAdjustParams info16CB)
      (by norm_num [InitColorAdjustParams, info16CB, info16A])⟩

/-- The nested conditional computing maxVal in RGBtoHSL is the ternary maximum. -/
theorem codeMax_eq (r g b : ℚ) :
    (if r > g then (if r > b then r else b) else (if g > b then g else b)) = max r (max g b) := by
  rcases max_cases g b with ⟨h1, h2⟩ | ⟨h1, h2⟩ <;> rcases max_cases r (max g b) with ⟨h3, h4⟩ | ⟨h3, h4⟩ <;>
    split_ifs <;> rw [h3] <;> linarith [h1 ▸ h4]

/-- The nested conditional computing minVal in RGBtoHSL is the ternary minimum. -/
theorem codeMin_eq (r g b : ℚ) :
    (if r < g then (if r < b then r else b) else (if g < b then g else b)) = min r (min g b) := by
  rcases min_cases g b with ⟨h1, h2⟩ | ⟨h1, h2⟩ <;> rcases min_cases r (min g b) with ⟨h3, h4⟩ | ⟨h3, h4⟩ <;>
    split_ifs <;> rw [h3] <;> linarith [h1 ▸ h4]

/-- RGBtoHSL written with the ternary maximum and minimum spelled out. -/
theorem RGBtoHSL_char (r g b : ℚ) :
    RGBtoHSL r g b =
      (if max r (max g b) - min r (min g b) < 0.00001 then
        ((0 : ℚ), (0 : ℚ), (max r (max g b) + min r (min g b)) * 0.5)
      else
        ((if max r (max g b) = r then
            (g - b) / (max r (max g b) - min r (min g b)) + (if g < b then 6 else 0)
          else if max r (max g b) = g then
            (b - r) / (max r (max g b) - min r (min g b)) + 2
          else (r - g) / (max r (max g b) - min r (min g b)) + 4) * 0.166666667,
         (if (max r (max g b) + min r (min g b)) * 0.5 > 0.5 then
            (max r (max g b) - min r (min g b)) / (2 - max r (max g b) - min r (min g b))
          else (max r (max g b) - min r (min g b)) / (max r (max g b) + min r (min g b))),
         (max r (max g b) + min r (min g b)) * 0.5)) := by
  unfold RGBtoHSL
  rw [codeMax_eq, codeMin_eq]

/-- HueToRGB on an argument already in [0,1]: no wrap adjustment. -/
theorem hueToRGB_noWrap (p q t : ℚ) (h0 : 0 ≤ t) (h1 : t ≤ 1) :
    HueToRGB p q t =
      (if t < 0.166666667 then p + (q - p) * 6 * t
       else if t < 0.5 then q
       else if t < 0.666666667 then p + (q - p) * (0.666666667 - t) * 6
       else p) := by
  unfold HueToRGB
  rw [show (if t < 0 then t + 1 else if t > 1 then t - 1 else t) = t by
    rw [if_neg (by linarith), if_neg (by linarith)]]

/-- HueToRGB on a negative argument: wraps by adding 1. -/
theorem hueToRGB_wrapNeg (p q t : ℚ) (h0 : t < 0) :
    HueToRGB p q t =
      (if t + 1 < 0.166666667 then p + (q - p) * 6 * (t + 1)
       else if t + 1 < 0.5 then q
       else if t + 1 < 0.666666667 then p + (q - p) * (0.666666667 - (t + 1)) * 6
       else p) := by
  unfold HueToRGB
  rw [if_pos h0]

/-- HueToRGB on an argument above 1: wraps by subtracting 1. -/
theorem hueToRGB_wrapPos (p q t : ℚ) (h0 : 1 < t) :
    HueToRGB p q t =
      (if t - 1 < 0.166666667 then p + (q - p) * 6 * (t - 1)
       else if t - 1 < 0.5 then q
       else if t - 1 < 0.666666667 then p + (q - p) * (0.666666667 - (t - 1)) * 6
       else p) := by
  unfold HueToRGB
  rw [show (if t < 0 then t + 1 else if t > 1 then t - 1 else t) = t - 1 by
    rw [if_neg (by linarith), if_pos h0]]

/-- Reconstruction bounds for hue sector 0 (red dominant, green ascending). -/
theorem hue_triple_0 (m M u : ℚ) (hm : 0 ≤ m) (hM : M ≤ 1) (hmM : m ≤ M)
    (hd : 1/100000 ≤ M - m) (hu1 : 0 ≤ u) (hu2 : u ≤ 1) :
    |HueToRGB m M (u * 0.166666667 + 0.333333333) - M| ≤ 1/10000 ∧
    |HueToRGB m M (u * 0.166666667) - (m + u * (M - m))| ≤ 1/10000 ∧
    |HueToRGB m M (u * 0.166666667 - 0.333333333) - m| ≤ 1/10000 := by
  have hd1 : M - m ≤ 1 := by linarith
  have hd0 : 0 ≤ M - m := by linarith
  refine ⟨?_, ?_, ?_⟩
  · rw [hueToRGB_noWrap _ _ _ (by positivity) (by norm_num; linarith)]
    split_ifs with ha hb hc
    · exfalso; norm_num at ha; linarith
    · norm_num
    · have hu : u = 1 := le_antisymm hu2 (by norm_num at hb; linarith)
      subst hu
      rw [abs_le]
      constructor <;> nlinarith [hd0, hd1]
    · exfalso; norm_num at hc; linarith
  · rw [hueToRGB_noWrap _ _ _ (by positivity) (by norm_num; linarith)]
    split_ifs with ha hb hc
    · have hP0 : 0 ≤ u * (M - m) := mul_nonneg hu1 hd0
      have hP1 : u * (M - m) ≤ 1 := by nlinarith
      rw [abs_le]
      constructor <;> nlinarith [hP0, hP1]
    · have hu : u = 1 := le_antisymm hu2 (by norm_num at ha; linarith)
      subst hu
      rw [abs_le]
      constructor <;> nlinarith [hd0, hd1]
    · exfalso; norm_num at hb; linarith
    · exfalso; norm_num at hc; linarith
  · rw [hueToRGB_wrapNeg _ _ _ (by norm_num; linarith)]
    split_ifs with ha hb hc
    · exfalso; norm_num at ha; linarith
    · exfalso; norm_num at hb; linarith
    · exfalso; norm_num at hc; linarith
    · norm_num

/-- Reconstruction bounds for hue sector 1 (green dominant, red descending). -/
theorem hue_triple_1 (m M u : ℚ) (hm : 0 ≤ m) (hM : M ≤ 1) (hmM : m ≤ M)
    (hd : 1/100000 ≤ M - m) (hu1 : 1 ≤ u) (hu2 : u ≤ 2) :
    |HueToRGB m M (u * 0.166666667 + 0.333333333) - (m + (2 - u) * (M - m))| ≤ 1/10000 ∧
    |HueToRGB m M (u * 0.166666667) - M| ≤ 1/10000 ∧
    |HueToRGB m M (u * 0.166666667 - 0.333333333) - m| ≤ 1/10000 := by
  have hd1 : M - m ≤ 1 := by linarith
  have hd0 : 0 ≤ M - m := by linarith
  refine ⟨?_, ?_, ?_⟩
  · rw [hueToRGB_noWrap _ _ _ (by positivity) (by norm_num; linarith)]
    split_ifs with ha hb hc
    · exfalso; norm_num at ha; linarith
    · exfalso; norm_num at hb; linarith
    · have hP0 : 0 ≤ (2 - u) * (M - m) := mul_nonneg (by linarith) hd0
      have hP1 : (2 - u) * (M - m) ≤ 1 := by nlinarith
      rw [abs_le]
      constructor <;> nlinarith [hP0, hP1]
    · have hu : u = 2 := le_antisymm hu2 (by norm_num at hc; linarith)
      subst hu
      norm_num
  · rw [hueToRGB_noWrap _ _ _ (by positivity) (by norm_num; linarith)]
    split_ifs with ha hb hc
    · exfalso; norm_num at ha; linarith
    · norm_num
    · exfalso; norm_num at hc; linarith
    · exfalso; norm_num at hb; linarith
  · by_cases hsign : u * 0.166666667 - 0.333333333 < 0
    · rw [hueToRGB_wrapNeg _ _ _ hsign]
      split_ifs with ha hb hc
      · exfalso; norm_num at ha; linarith
      · exfalso; norm_num at hb; linarith
      · exfalso; norm_num at hc; linarith
      · norm_num
    · rw [hueToRGB_noWrap _ _ _ (by norm_num at hsign ⊢; linarith) (by norm_num; linarith)]
      split_ifs with ha hb hc
      · norm_num at hsign
        have hX0 : (0:ℚ) ≤ u * 0.166666667 - 0.333333333 := by norm_num; linarith
        have hX1 : u * 0.166666667 - 0.333333333 ≤ 1/1000000000 := by norm_num; linarith
        norm_num at hX0 hX1 ⊢
        rw [abs_le]
        constructor <;> nlinarith [hd0, hd1, hX0, hX1]
      · exfalso; norm_num at ha; linarith
      · exfalso; norm_num at ha; linarith
      · exfalso; norm_num at ha; linarith

/-- Reconstruction bounds for hue sector 2 (green dominant, blue ascending). -/
theorem hue_triple_2 (m M u : ℚ) (hm : 0 ≤ m) (hM : M ≤ 1) (hmM : m ≤ M)
    (hd : 1/100000 ≤ M - m) (hu1 : 2 ≤ u) (hu2 : u ≤ 3) :
    |HueToRGB m M (u * 0.166666667 + 0.333333333) - m| ≤ 1/10000 ∧
    |HueToRGB m M (u * 0.166666667) - M| ≤ 1/10000 ∧
    |HueToRGB m M (u * 0.166666667 - 0.333333333) - (m + (u - 2) * (M - m))| ≤ 1/10000 := by
  have hd1 : M - m ≤ 1 := by linarith
  have hd0 : 0 ≤ M - m := by linarith
  refine ⟨?_, ?_, ?_⟩
  · rw [hueToRGB_noWrap _ _ _ (by positivity) (by norm_num; linarith)]
    split_ifs with ha hb hc
    · exfalso; norm_num at ha; linarith
    · exfalso; norm_num at hb; linarith
    · exfalso; norm_num at hc; linarith
    · norm_num
  · rw [hueToRGB_noWrap _ _ _ (by positivity) (by norm_num; linarith)]
    split_ifs with ha hb hc
    · exfalso; norm_num at ha; linarith
    · norm_num
    · norm_num at hb hc
      have hA : (0:ℚ) ≤ (M - m) * (u * (166666667/1000000000) - 1/2) :=
        mul_nonneg hd0 (by linarith)
      have hB : (0:ℚ) ≤ (M - m) * (500000001/1000000000 - u * (166666667/1000000000)) :=
        mul_nonneg hd0 (by linarith)
      rw [abs_le]
      constructor <;> nlinarith [hA, hB, hd0, hd1]
    · exfalso; norm_num at hb hc; linarith
  · rw [hueToRGB_noWrap _ _ _ (by norm_num; linarith) (by norm_num; linarith)]
    split_ifs with ha hb hc
    · norm_num at ha
      have hP0 : (0:ℚ) ≤ (M - m) * u := mul_nonneg hd0 (by linarith)
      have hP1 : (M - m) * u ≤ 3 := by nlinarith
      rw [abs_le]
      constructor <;> nlinarith [hP0, hP1, hd0, hd1]
    · norm_num at ha hb
      have hA : (0:ℚ) ≤ (M - m) * (3 - u) := mul_nonneg hd0 (by linarith)
      have hB : (M - m) * (3 - u) ≤ 3 - u := by nlinarith
      have hC : 3 - u ≤ 1/166666667 := by linarith
      rw [abs_le]
      constructor <;> nlinarith [hA, hB, hC, hd0, hd1]
    · exfalso; norm_num at hc; linarith
    · exfalso; norm_num at hb hc; linarith

/-- Reconstruction bounds for hue sector 3 (blue dominant, green descending). -/
theorem hue_triple_3 (m M u : ℚ) (hm : 0 ≤ m) (hM : M ≤ 1) (hmM : m ≤ M)
    (hd : 1/100000 ≤ M - m) (hu1 : 3 ≤ u) (hu2 : u ≤ 4) :
    |HueToRGB m M (u * 0.166666667 + 0.333333333) - m| ≤ 1/10000 ∧
    |HueToRGB m M (u * 0.166666667) - (m + (4 - u) * (M - m))| ≤ 1/10000 ∧
    |HueToRGB m M (u * 0.166666667 - 0.333333333) - M| ≤ 1/10000 := by
  have hd1 : M - m ≤ 1 := by linarith
  have hd0 : 0 ≤ M - m := by linarith
  refine ⟨?_, ?_, ?_⟩
  · by_cases hw : 1 < u * 0.166666667 + 0.333333333
    · rw [hueToRGB_wrapPos _ _ _ hw]
      norm_num at hw
      split_ifs with ha hb hc
      · have hX0 : (0:ℚ) ≤ (M - m) * (u * (166666667/1000000000) + 333333333/1000000000 - 1) :=
          mul_nonneg hd0 (by linarith)
        have hX1 : (M - m) * (u * (166666667/1000000000) + 333333333/1000000000 - 1) ≤
            1/1000000000 := by nlinarith
        rw [abs_le]
        constructor <;> nlinarith [hX0, hX1, hd0, hd1]
      · exfalso; norm_num at ha; linarith
      · exfalso; norm_num at ha; linarith
      · exfalso; norm_num at ha; linarith
    · rw [hueToRGB_noWrap _ _ _ (by positivity) (by norm_num at hw ⊢; linarith)]
      split_ifs with ha hb hc
      · exfalso; norm_num at ha; linarith
      · exfalso; norm_num at hb; linarith
      · exfalso; norm_num at hc; linarith
      · norm_num
  · rw [hueToRGB_noWrap _ _ _ (by positivity) (by norm_num; linarith)]
    split_ifs with ha hb hc
    · exfalso; norm_num at ha; linarith
    · exfalso; norm_num at hb; linarith
    · norm_num at hc
      have hP0 : (0:ℚ) ≤ (M - m) * u := mul_nonneg hd0 (by linarith)
      have hP1 : (M - m) * u ≤ 4 := by nlinarith
      rw [abs_le]
      constructor <;> nlinarith [hP0, hP1, hd0, hd1]
    · norm_num at hc
      have hA : (0:ℚ) ≤ (M - m) * (4 - u) := mul_nonneg hd0 (by linarith)
      have hB : (M - m) * (4 - u) ≤ 4 - u := by nlinarith
      have hC : 4 - u ≤ 1/166666667 := by linarith
      rw [abs_le]
      constructor <;> nlinarith [hA, hB, hC, hd0, hd1]
  · rw [hueToRGB_noWrap _ _ _ (by norm_num; linarith) (by norm_num; linarith)]
    split_ifs with ha hb hc
    · exfalso; norm_num at ha; linarith
    · norm_num
    · exfalso; norm_num at ha; linarith
    · exfalso; norm_num at hb; linarith

/-- Reconstruction bounds for hue sector 4 (blue dominant, red ascending). -/
theorem hue_triple_4 (m M u : ℚ) (hm : 0 ≤ m) (hM : M ≤ 1) (hmM : m ≤ M)
    (hd : 1/100000 ≤ M - m) (hu1 : 4 ≤ u) (hu2 : u ≤ 5) :
    |HueToRGB m M (u * 0.166666667 + 0.333333333) - (m + (u - 4) * (M - m))| ≤ 1/10000 ∧
    |HueToRGB m M (u * 0.166666667) - m| ≤ 1/10000 ∧
    |HueToRGB m M (u * 0.166666667 - 0.333333333) - M| ≤ 1/10000 := by
  have hd1 : M - m ≤ 1 := by linarith
  have hd0 : 0 ≤ M - m := by linarith
  refine ⟨?_, ?_, ?_⟩
  · rw [hueToRGB_wrapPos _ _ _ (by norm_num; linarith)]
    split_ifs with ha hb hc
    · norm_num at ha
      have hP0 : (0:ℚ) ≤ (M - m) * u := mul_nonneg hd0 (by linarith)
      have hP1 : (M - m) * u ≤ 5 := by nlinarith
      rw [abs_le]
      constructor <;> nlinarith [hP0, hP1, hd0, hd1]
    · norm_num at ha hb
      have hA : (0:ℚ) ≤ (M - m) * (5 - u) := mul_nonneg hd0 (by linarith)
      have hB : (M - m) * (5 - u) ≤ 5 - u := by nlinarith
      have hC : 5 - u ≤ 1/166666667 := by linarith
      rw [abs_le]
      constructor <;> nlinarith [hA, hB, hC, hd0, hd1]
    · exfalso; norm_num at hb; linarith
    · exfalso; norm_num at hb; linarith
  · rw [hueToRGB_noWrap _ _ _ (by positivity) (by norm_num; linarith)]
    split_ifs with ha hb hc
    · exfalso; norm_num at ha; linarith
    · exfalso; norm_num at hb; linarith
    · exfalso; norm_num at hc; linarith
    · norm_num
  · rw [hueToRGB_noWrap _ _ _ (by norm_num; linarith) (by norm_num; linarith)]
    split_ifs with ha hb hc
    · exfalso; norm_num at ha; linarith
    · norm_num
    · norm_num at hb hc
      have hA : (0:ℚ) ≤ (M - m) * (u * (166666667/1000000000) - 1/2 - 333333333/1000000000) :=
        mul_nonneg hd0 (by linarith)
      have hB : (0:ℚ) ≤ (M - m) * (833333335/1000000000 - u * (166666667/1000000000)) :=
        mul_nonneg hd0 (by linarith)
      rw [abs_le]
      constructor <;> nlinarith [hA, hB, hd0, hd1]
    · exfalso; norm_num at hb hc; linarith

/-- Reconstruction bounds for hue sector 5 (red dominant, blue descending). -/
theorem hue_triple_5 (m M u : ℚ) (hm : 0 ≤ m) (hM : M ≤ 1) (hmM : m ≤ M)
    (hd : 1/100000 ≤ M - m) (hu1 : 5 ≤ u) (hu2 : u ≤ 6) :
    |HueToRGB m M (u * 0.166666667 + 0.333333333) - M| ≤ 1/10000 ∧
    |HueToRGB m M (u * 0.166666667) - m| ≤ 1/10000 ∧
    |HueToRGB m M (u * 0.166666667 - 0.333333333) - (m + (6 - u) * (M - m))| ≤ 1/10000 := by
  have hd1 : M - m ≤ 1 := by linarith
  have hd0 : 0 ≤ M - m := by linarith
  refine ⟨?_, ?_, ?_⟩
  · rw [hueToRGB_wrapPos _ _ _ (by norm_num; linarith)]
    split_ifs with ha hb hc
    · exfalso; norm_num at ha; linarith
    · norm_num
    · exfalso; norm_num at hc; linarith
    · exfalso; norm_num at hb hc; linarith
  · by_cases hw : 1 < u * 0.166666667
    · rw [hueToRGB_wrapPos _ _ _ hw]
      norm_num at hw
      split_ifs with ha hb hc
      · have hX0 : (0:ℚ) ≤ (M - m) * (u * (166666667/1000000000) - 1) :=
          mul_nonneg hd0 (by linarith)
        have hX1 : (M - m) * (u * (166666667/1000000000) - 1) ≤ 2/1000000000 := by nlinarith
        rw [abs_le]
        constructor <;> nlinarith [hX0, hX1, hd0, hd1]
      · exfalso; norm_num at ha; linarith
      · exfalso; norm_num at ha; linarith
      · exfalso; norm_num at ha; linarith
    · rw [hueToRGB_noWrap _ _ _ (by positivity) (by norm_num at hw ⊢; linarith)]
      split_ifs with ha hb hc
      · exfalso; norm_num at ha; linarith
      · exfalso; norm_num at hb; linarith
      · exfalso; norm_num at hc; linarith
      · norm_num
  · rw [hueToRGB_noWrap _ _ _ (by norm_num; linarith) (by norm_num; linarith)]
    split_ifs with ha hb hc
    · exfalso; norm_num at ha; linarith
    · exfalso; norm_num at hb; linarith
    · norm_num at hc
      have hP0 : (0:ℚ) ≤ (M - m) * u := mul_nonneg hd0 (by linarith)
      have hP1 : (M - m) * u ≤ 6 := by nlinarith
      rw [abs_le]
      constructor <;> nlinarith [hP0, hP1, hd0, hd1]
    · norm_num at hc
      have hA : (0:ℚ) ≤ (M - m) * (6 - u) := mul_nonneg hd0 (by linarith)
      have hB : (M - m) * (6 - u) ≤ 6 - u := by nlinarith
      have hC : 6 - u ≤ 2/166666667 := by linarith
      rw [abs_le]
      constructor <;> nlinarith [hA, hB, hC, hd0, hd1]


/-- The chromatic saturation is never below the achromatic threshold of
HSLtoRGB, so the chromatic branch is taken on the way back. -/
theorem hsl_s_not_lt (M m : ℚ) (hm : 0 ≤ m) (hM : M ≤ 1) (hmM : m ≤ M)
    (hd : 1/100000 ≤ M - m) :
    ¬((if (M + m) * 0.5 > 0.5 then (M - m) / (2 - M - m) else (M - m) / (M + m)) < 0.00001) := by
  have h1 : 0 < M + m := by linarith
  have h2 : M + m < 2 := by linarith
  rw [not_lt]
  split_ifs with hl
  · norm_num at hl ⊢
    rw [le_div_iff₀ (by linarith)]
    nlinarith
  · norm_num at hl ⊢
    rw [le_div_iff₀ h1]
    nlinarith

/-- The q intermediate of HSLtoRGB, fed with the saturation and lightness
produced by RGBtoHSL, recovers the maximum channel exactly. -/
theorem hsl_q_max (M m : ℚ) (hm : 0 ≤ m) (hM : M ≤ 1) (hmM : m ≤ M)
    (hd : 1/100000 ≤ M - m) :
    (if (M + m) * 0.5 < 0.5 then
      ((M + m) * 0.5) * (1 + (if (M + m) * 0.5 > 0.5 then (M - m) / (2 - M - m)
        else (M - m) / (M + m)))
     else
      (M + m) * 0.5 + (if (M + m) * 0.5 > 0.5 then (M - m) / (2 - M - m)
        else (M - m) / (M + m)) -
      ((M + m) * 0.5) * (if (M + m) * 0.5 > 0.5 then (M - m) / (2 - M - m)
        else (M - m) / (M + m))) = M := by
  have h1 : 0 < M + m := by linarith
  have h1n : M + m ≠ 0 := ne_of_gt h1
  have h2 : M + m < 2 := by linarith
  rcases lt_trichotomy ((M + m) * 0.5) 0.5 with hl | hl | hl
  · rw [if_pos hl, if_neg (by linarith)]
    field_simp
    ring
  · rw [if_neg (by linarith), if_neg (by linarith)]
    have hm1 : m = 1 - M := by norm_num at hl; linarith
    subst hm1
    norm_num
    field_simp
    ring
  · rw [if_neg (by linarith), if_pos hl]
    have h3 : 0 < 2 - M - m := by linarith
    have h3n : 2 - M - m ≠ 0 := ne_of_gt h3
    field_simp
    ring

/-- C9: for every RGB triple in the unit cube, converting to HSL and back
reproduces each channel within 1/10000 (the only inexactness being the
rounded decimal constants of the conversion code); and whenever the
channel spread is below the 1/100000 threshold, RGBtoHSL returns hue 0 and
saturation exactly 0. -/
theorem C9_hsl_roundtrip : ∀ r g b : ℚ,
    0 ≤ r → r ≤ 1 → 0 ≤ g → g ≤ 1 → 0 ≤ b → b ≤ 1 →
    ((|(HSLtoRGB (RGBtoHSL r g b).1 (RGBtoHSL r g b).2.1 (RGBtoHSL r g b).2.2).1 - r| ≤ 1/10000) ∧
     (|(HSLtoRGB (RGBtoHSL r g b).1 (RGBtoHSL r g b).2.1 (RGBtoHSL r g b).2.2).2.1 - g| ≤ 1/10000) ∧
     (|(HSLtoRGB (RGBtoHSL r g b).1 (RGBtoHSL r g b).2.1 (RGBtoHSL r g b).2.2).2.2 - b| ≤ 1/10000)) ∧
    (max r (max g b) - min r (min g b) < 1/100000 →
      (RGBtoHSL r g b).1 = 0 ∧ (RGBtoHSL r g b).2.1 = 0) := by
  intro r g b hr0 hr1 hg0 hg1 hb0 hb1
  rw [RGBtoHSL_char]
  have hrM : r ≤ max r (max g b) := le_max_left _ _
  have hgM : g ≤ max r (max g b) := le_trans (le_max_left _ _) (le_max_right _ _)
  have hbM : b ≤ max r (max g b) := le_trans (le_max_right _ _) (le_max_right _ _)
  have hmr : min r (min g b) ≤ r := min_le_left _ _
  have hmg : min r (min g b) ≤ g := le_trans (min_le_right _ _) (min_le_left _ _)
  have hmb : min r (min g b) ≤ b := le_trans (min_le_right _ _) (min_le_right _ _)
  have hm0 : 0 ≤ min r (min g b) := le_min hr0 (le_min hg0 hb0)
  have hM1 : max r (max g b) ≤ 1 := max_le hr1 (max_le hg1 hb1)
  have hmM : min r (min g b) ≤ max r (max g b) := le_trans hmr hrM
  by_cases hdlt : max r (max g b) - min r (min g b) < 0.00001
  · rw [if_pos hdlt]
    constructor
    · unfold HSLtoRGB
      rw [if_pos (by norm_num)]
      norm_num at hdlt
      refine ⟨?_, ?_, ?_⟩ <;> (rw [abs_le]; constructor <;> simp <;> linarith)
    · intro hcon
      exact ⟨rfl, rfl⟩
  · rw [if_neg hdlt]
    norm_num at hdlt
    constructor
    swap
    · intro hcon
      exfalso
      linarith
    unfold HSLtoRGB
    rw [if_neg (hsl_s_not_lt _ _ hm0 hM1 hmM hdlt)]
    dsimp only
    rw [hsl_q_max _ _ hm0 hM1 hmM hdlt]
    rw [show 2 * ((max r (max g b) + min r (min g b)) * 0.5) - max r (max g b) =
      min r (min g b) from by ring]
    by_cases hMr : max r (max g b) = r
    · rw [if_pos hMr]
      by_cases hgb : g < b
      · -- max = r, min = g, u in [5,6]
        rw [if_pos hgb]
        have hmEq : min r (min g b) = g := by
          rw [min_eq_left hgb.le, min_eq_right (hMr ▸ hgM)]
        rw [hMr, hmEq] at hdlt ⊢
        have hdpos : (0:ℚ) < r - g := by linarith
        have hbr : b ≤ r := hMr ▸ hbM
        have hu1 : (5:ℚ) ≤ (g - b) / (r - g) + 6 := by
          have h := (le_div_iff₀ hdpos).mpr (show (-1 : ℚ) * (r - g) ≤ g - b by linarith)
          linarith
        have hu2 : (g - b) / (r - g) + 6 ≤ 6 := by
          have h := (div_le_iff₀ hdpos).mpr (show g - b ≤ 0 * (r - g) by linarith)
          linarith
        have hrel : g + (6 - ((g - b) / (r - g) + 6)) * (r - g) = b := by
          field_simp
        obtain ⟨T1, T2, T3⟩ := hue_triple_5 g r ((g - b) / (r - g) + 6) hg0 hr1
          (by linarith) hdlt hu1 hu2
        rw [hrel] at T3
        exact ⟨T1, T2, T3⟩
      · -- max = r, min = b, u in [0,1]
        rw [if_neg hgb]
        have hgb2 : b ≤ g := not_lt.mp hgb
        have hmEq : min r (min g b) = b := by
          rw [min_eq_right hgb2, min_eq_right (hMr ▸ hbM)]
        rw [hMr, hmEq] at hdlt ⊢
        have hdpos : (0:ℚ) < r - b := by linarith
        have hgr : g ≤ r := hMr ▸ hgM
        have hu1 : (0:ℚ) ≤ (g - b) / (r - b) + 0 := by
          have h := div_nonneg (show (0:ℚ) ≤ g - b by linarith) hdpos.le
          linarith
        have hu2 : (g - b) / (r - b) + 0 ≤ 1 := by
          have h := (div_le_iff₀ hdpos).mpr (show g - b ≤ 1 * (r - b) by linarith)
          linarith
        have hrel : b + ((g - b) / (r - b) + 0) * (r - b) = g := by
          field_simp
        obtain ⟨T1, T2, T3⟩ := hue_triple_0 b r ((g - b) / (r - b) + 0) hb0 hr1
          (by linarith) hdlt hu1 hu2
        rw [hrel] at T2
        exact ⟨T1, T2, T3⟩
    · rw [if_neg hMr]
      by_cases hMg : max r (max g b) = g
      · rw [if_pos hMg]
        have hrg : r < g := lt_of_le_of_ne (hMg ▸ hrM) (fun h => hMr (hMg.trans h.symm))
        by_cases hbr : b < r
        · -- max = g, min = b, u in [1,2]
          have hmEq : min r (min g b) = b := by
            rw [min_eq_right (show b ≤ g by linarith), min_eq_right hbr.le]
          rw [hMg, hmEq] at hdlt ⊢
          have hdpos : (0:ℚ) < g - b := by linarith
          have hu1 : (1:ℚ) ≤ (b - r) / (g - b) + 2 := by
            have h := (le_div_iff₀ hdpos).mpr (show (-1 : ℚ) * (g - b) ≤ b - r by linarith)
            linarith
          have hu2 : (b - r) / (g - b) + 2 ≤ 2 := by
            have h := (div_le_iff₀ hdpos).mpr (show b - r ≤ 0 * (g - b) by linarith)
            linarith
          have hrel : b + (2 - ((b - r) / (g - b) + 2)) * (g - b) = r := by
            field_simp
          obtain ⟨T1, T2, T3⟩ := hue_triple_1 b g ((b - r) / (g - b) + 2) hb0 hg1
            (by linarith) hdlt hu1 hu2
          rw [hrel] at T1
          exact ⟨T1, T2, T3⟩
        · -- max = g, min = r, u in [2,3]
          have hrb : r ≤ b := not_lt.mp hbr
          have hmEq : min r (min g b) = r := min_eq_left (le_min hrg.le hrb)
          rw [hMg, hmEq] at hdlt ⊢
          have hdpos : (0:ℚ) < g - r := by linarith
          have hbg : b ≤ g := hMg ▸ hbM
          have hu1 : (2:ℚ) ≤ (b - r) / (g - r) + 2 := by
            have h := div_nonneg (show (0:ℚ) ≤ b - r by linarith) hdpos.le
            linarith
          have hu2 : (b - r) / (g - r) + 2 ≤ 3 := by
            have h := (div_le_iff₀ hdpos).mpr (show b - r ≤ 1 * (g - r) by linarith)
            linarith
          have hrel : r + ((b - r) / (g - r) + 2 - 2) * (g - r) = b := by
            field_simp
            ring
          obtain ⟨T1, T2, T3⟩ := hue_triple_2 r g ((b - r) / (g - r) + 2) hr0 hg1
            (by linarith) hdlt hu1 hu2
          rw [hrel] at T3
          exact ⟨T1, T2, T3⟩
      · rw [if_neg hMg]
        have hMb : max r (max g b) = b := by
          rcases max_choice g b with h1 | h1 <;> rcases max_choice r (max g b) with h2 | h2
          · exact absurd h2 hMr
          · exact absurd (h2.trans h1) hMg
          · exact absurd h2 hMr
          · rw [h2, h1]
        have hrb : r < b := lt_of_le_of_ne (hMb ▸ hrM) (fun h => hMr (hMb.trans h.symm))
        have hgb3 : g < b := lt_of_le_of_ne (hMb ▸ hgM) (fun h => hMg (hMb.trans h.symm))
        by_cases hrg : r < g
        · -- max = b, min = r, u in [3,4]
          have hmEq : min r (min g b) = r := min_eq_left (le_min hrg.le hrb.le)
          rw [hMb, hmEq] at hdlt ⊢
          have hdpos : (0:ℚ) < b - r := by linarith
          have hu1 : (3:ℚ) ≤ (r - g) / (b - r) + 4 := by
            have h := (le_div_iff₀ hdpos).mpr (show (-1 : ℚ) * (b - r) ≤ r - g by linarith)
            linarith
          have hu2 : (r - g) / (b - r) + 4 ≤ 4 := by
            have h := (div_le_iff₀ hdpos).mpr (show r - g ≤ 0 * (b - r) by linarith)
            linarith
          have hrel : r + (4 - ((r - g) / (b - r) + 4)) * (b - r) = g := by
            field_simp
          obtain ⟨T1, T2, T3⟩ := hue_triple_3 r b ((r - g) / (b - r) + 4) hr0 hb1
            (by linarith) hdlt hu1 hu2
          rw [hrel] at T2
          exact ⟨T1, T2, T3⟩
        · -- max = b, min = g, u in [4,5]
          have hgr : g ≤ r := not_lt.mp hrg
          have hmEq : min r (min g b) = g := by
            rw [min_eq_left hgb3.le, min_eq_right hgr]
          rw [hMb, hmEq] at hdlt ⊢
          have hdpos : (0:ℚ) < b - g := by linarith
          have hu1 : (4:ℚ) ≤ (r - g) / (b - g) + 4 := by
            have h := div_nonneg (show (0:ℚ) ≤ r - g by linarith) hdpos.le
            linarith
          have hu2 : (r - g) / (b - g) + 4 ≤ 5 := by
            have h := (div_le_iff₀ hdpos).mpr (show r - g ≤ 1 * (b - g) by linarith)
            linarith
          have hrel : g + ((r - g) / (b - g) + 4 - 4) * (b - g) = r := by
            field_simp
            ring
          obtain ⟨T1, T2, T3⟩ := hue_triple_4 g b ((r - g) / (b - g) + 4) hg0 hb1
            (by linarith) hdlt hu1 hu2
          rw [hrel] at T1
          exact ⟨T1, T2, T3⟩

/-- C9 witness: the round trip at pure red (1,0,0) is within tolerance in
every channel, and the achromatic grey (1/2,1/2,1/2) yields hue 0 and
saturation exactly 0. -/
theorem C9_hsl_roundtrip_witness :
    (|(HSLtoRGB (RGBtoHSL 1 0 0).1 (RGBtoHSL 1 0 0).2.1 (RGBtoHSL 1 0 0).2.2).1 - 1| ≤ 1/10000 ∧
     |(HSLtoRGB (RGBtoHSL 1 0 0).1 (RGBtoHSL 1 0 0).2.1 (RGBtoHSL 1 0 0).2.2).2.1 - 0| ≤ 1/10000 ∧
     |(HSLtoRGB (RGBtoHSL 1 0 0).1 (RGBtoHSL 1 0 0).2.1 (RGBtoHSL 1 0 0).2.2).2.2 - 0| ≤ 1/10000) ∧
    ((RGBtoHSL (1/2) (1/2) (1/2)).1 = 0 ∧ (RGBtoHSL (1/2) (1/2) (1/2)).2.1 = 0) :=
  ⟨(C9_hsl_roundtrip 1 0 0 (by norm_num) (by norm_num) (by norm_num) (by norm_num)
      (by norm_num) (by norm_num)).1,
   (C9_hsl_roundtrip (1/2) (1/2) (1/2) (by norm_num) (by norm_num) (by norm_num)
      (by norm_num) (by norm_num) (by norm_num)).2 (by norm_num)⟩
